import Mathlib

/-!
Verification of the realtime session bridge of the travel-planner repository.

We shallowly embed the TypeScript sources:
  * `server/src/websocket/geminiTextClient.ts`  (Upstream Fallback Session)
  * `server/src/websocket/geminiClient.ts`      (Upstream Live Session)
  * `server/src/websocket/clientHandler.ts`     (Client Session Manager)
  * `server/src/tools/toolDefinitions.ts`       (tool catalog + Gemini conversion)
  * `server/src/mcp/toolExecutor.ts`            (Tool Dispatcher)
  * `server/src/mcp/itineraryBuilder.ts`        (itinerary data model and updates)

External collaborators (HTTP endpoints, the upstream AI service, `Math.random`,
`Date.now`, `JSON.parse` of untyped data, floating-point geometry helpers) are
modelled as oracle parameters bundled into environment structures, so every
definition is executable and every theorem quantifies over all oracle
behaviours.  JavaScript numbers are modelled as `Rat` (exact for every value
the embedded code computes with); JavaScript truthiness is modelled
explicitly by `JVal.truthy`.
-/

/-- JSON-like values, used for tool arguments and tool results
    (the `unknown` / `Record<string, unknown>` values of the TypeScript code). -/
inductive JVal where
  | null
  | bool (b : Bool)
  | num (n : Rat)
  | str (s : String)
  | arr (xs : List JVal)
  | obj (kvs : List (String × JVal))
deriving Repr, BEq

/-- JavaScript truthiness of a `JVal`: `null`, `false`, `0` and `""` are falsy,
    every array or object is truthy. -/
def JVal.truthy : JVal → Bool
  | .null => false
  | .bool b => b
  | .num n => n != 0
  | .str s => s != ""
  | .arr _ => true
  | .obj _ => true

/-- Field lookup in a JSON object / argument record (first binding wins,
    as for JavaScript object properties). -/
def jlookup (kvs : List (String × JVal)) (k : String) : Option JVal :=
  (kvs.find? (fun kv => kv.1 == k)).map (·.2)

/-- Truthiness of `params.k` for an argument record: absent fields are falsy. -/
def jtruthy (kvs : List (String × JVal)) (k : String) : Bool :=
  match jlookup kvs k with
  | some v => v.truthy
  | none => false

/-- The string content of a field (`params.k as string`); non-string values are
    abstracted to `""`, which only matters for ill-typed upstream arguments. -/
def jstr (kvs : List (String × JVal)) (k : String) : String :=
  match jlookup kvs k with
  | some (.str s) => s
  | _ => ""

/-- The numeric content of a field (`params.k as number`). -/
def jnum (kvs : List (String × JVal)) (k : String) : Rat :=
  match jlookup kvs k with
  | some (.num n) => n
  | _ => 0

/-- One entry of the fallback conversation history
    (`{role, parts: [{text}]}` in `geminiTextClient.ts`; every entry pushed by
    the code has exactly one text part). -/
structure Turn where
  role : String
  text : String
deriving Repr, DecidableEq

namespace TextClient

/-- One content part of a `generateContent` response
    (`ContentPart` in `geminiTextClient.ts`). -/
structure ContentPart where
  text : Option String := none
  functionCall : Option (String × JVal) := none
deriving Repr

/-- Decoded response body (`GenerateContentResponse` in `geminiTextClient.ts`):
    an optional error message and the parts of each candidate. -/
structure GenResponse where
  error : Option String := none
  candidates : List (List ContentPart) := []
deriving Repr

/-- Client-visible callbacks of the fallback session
    (`GeminiTextClientCallbacks`). -/
inductive TCEvent where
  | textResponse (t : String)
  | toolCall (id name : String) (args : JVal) (result : Option JVal)
  | errorCb (msg : String)
deriving Repr, BEq

/-- Oracles for the fallback session: the upstream HTTP endpoint
    (`callGeminiAPI`, indexed by the number of requests already made so that
    repeated requests with equal history may answer differently) and the tool
    dispatcher (`executeToolCall`, similarly indexed).  A `.error` result
    models a thrown exception / rejected promise. -/
structure TCEnv where
  api : Nat → List Turn → Except String GenResponse
  dispatch : Nat → String → JVal → Except String JVal

/-- Mutable state of a `GeminiTextClient`: the conversation history together
    with two instrumentation counters used as oracle indices (number of
    upstream requests issued and of tool dispatches performed). -/
structure TCState where
  history : List Turn := []
  apiCalls : Nat := 0
  dispatches : Nat := 0
deriving Repr, DecidableEq

/-- Observable outcome of running one fallback-session entry point: the final
    state, the callbacks emitted in order, the `contents` payload of each
    upstream request issued in order, and the tool calls dispatched in order. -/
structure TCRun where
  state : TCState
  events : List TCEvent
  requests : List (List Turn)
  dispatched : List (String × JVal)
deriving Repr

/-- Sequential composition of two instrumented runs. -/
def TCRun.append (r : TCRun) (f : TCState → TCRun) : TCRun :=
  let r2 := f r.state
  ⟨r2.state, r.events ++ r2.events, r.requests ++ r2.requests,
   r.dispatched ++ r2.dispatched⟩

/-- A run that changes nothing beyond the given state. -/
def TCRun.pure (s : TCState) : TCRun := ⟨s, [], [], []⟩

/-- The error-shaped tool result sent upstream after a dispatch failure
    (`{error: message}` in `sendText`). -/
def errShaped (msg : String) : JVal := .obj [("error", .str msg)]

/-- Serialisation of the `function`-role history entry
    (`JSON.stringify({name, response})`); the exact JSON text never matters
    for the verified properties, only that the entry has role `function`. -/
def renderFunctionTurn (name : String) (result : JVal) : String :=
  "functionResponse:" ++ name ++ ":" ++ reprStr result

/-- Append the text parts of a response candidate to history and emit a
    transcript callback for each (the loop bodies guarded by
    `if (part.text)` — empty strings are falsy and skipped). -/
def appendTextParts (s : TCState) : List ContentPart → TCState × List TCEvent
  | [] => (s, [])
  | p :: rest =>
      match p.text with
      | some t =>
          if t ≠ "" then
            let r := appendTextParts { s with history := s.history ++ [⟨"model", t⟩] } rest
            (r.1, .textResponse t :: r.2)
          else appendTextParts s rest
      | none => appendTextParts s rest

/-- `sendToolResponse(functionName, result)` of `geminiTextClient.ts`: append a
    `function`-role turn to history, issue one follow-up request
    (`callGeminiAPI`, carrying the history verbatim), and append / emit only
    the *text* parts of its first candidate; its function-call parts are
    ignored, and a transport or decode failure of the follow-up request is
    caught and produces no callback at all. -/
def sendToolResponse (env : TCEnv) (s : TCState) (name : String) (result : JVal) : TCRun :=
  let s1 : TCState := { s with history := s.history ++ [⟨"function", renderFunctionTurn name result⟩] }
  let s2 : TCState := { s1 with apiCalls := s1.apiCalls + 1 }
  match env.api s1.apiCalls s1.history with
  | .error _ => ⟨s2, [], [s1.history], []⟩
  | .ok r =>
      match r.candidates.head? with
      | none => ⟨s2, [], [s1.history], []⟩
      | some parts =>
          let r2 := appendTextParts s2 parts
          ⟨r2.1, r2.2, [s1.history], []⟩

/-- The loop body of the parts loop in `sendText`, for one part: the
    `if (part.text)` block appends a model turn to history and emits a
    transcript callback; the `if (part.functionCall)` block dispatches the
    call, emits the tool-call callback (with the result on success, with
    `null` on dispatch failure — `call_${Date.now()}` ids are modelled by a
    dispatch counter), and `sendToolResponse` performs the single follow-up
    round trip. -/
def handleOnePart (env : TCEnv) (s : TCState) (p : ContentPart) : TCRun :=
  let textRun : TCRun :=
    match p.text with
    | some t =>
        if t ≠ "" then
          ⟨{ s with history := s.history ++ [⟨"model", t⟩] }, [.textResponse t], [], []⟩
        else TCRun.pure s
    | none => TCRun.pure s
  let fcRun : TCRun :=
    match p.functionCall with
    | some (name, args) =>
        let st := textRun.state
        let id := "call_" ++ toString st.dispatches
        let st1 : TCState := { st with dispatches := st.dispatches + 1 }
        match env.dispatch st.dispatches name args with
        | .ok r =>
            let tail := sendToolResponse env st1 name r
            ⟨tail.state, .toolCall id name args (some r) :: tail.events,
             tail.requests, (name, args) :: tail.dispatched⟩
        | .error e =>
            let tail := sendToolResponse env st1 name (errShaped e)
            ⟨tail.state, .toolCall id name args none :: tail.events,
             tail.requests, (name, args) :: tail.dispatched⟩
    | none => TCRun.pure textRun.state
  ⟨fcRun.state, textRun.events ++ fcRun.events, fcRun.requests, fcRun.dispatched⟩

/-- The parts loop of `sendText` over the first candidate's parts. -/
def processParts (env : TCEnv) (s : TCState) : List ContentPart → TCRun
  | [] => TCRun.pure s
  | p :: rest => (handleOnePart env s p).append (fun s3 => processParts env s3 rest)

/-- `sendText(userText)` of `geminiTextClient.ts`: push the user turn, issue
    the request, surface a single error callback on a transport failure or an
    error-shaped response, and otherwise process the first candidate's
    parts. -/
def sendText (env : TCEnv) (s : TCState) (userText : String) : TCRun :=
  let s1 : TCState := { s with history := s.history ++ [⟨"user", userText⟩] }
  let s2 : TCState := { s1 with apiCalls := s1.apiCalls + 1 }
  match env.api s1.apiCalls s1.history with
  | .error e => ⟨s2, [.errorCb e], [s1.history], []⟩
  | .ok r =>
      match r.error with
      | some m => ⟨s2, [.errorCb m], [s1.history], []⟩
      | none =>
          match r.candidates.head? with
          | none => ⟨s2, [], [s1.history], []⟩
          | some parts =>
              let run := processParts env s2 parts
              ⟨run.state, run.events, s1.history :: run.requests, run.dispatched⟩

/-- `reset()` of `geminiTextClient.ts`: drop the conversation history. -/
def reset (s : TCState) : TCState := { s with history := [] }

/-- The function-call parts of a candidate, in order (`part.functionCall`
    is an object and hence truthy whenever present). -/
def fcParts (parts : List ContentPart) : List (String × JVal) :=
  parts.filterMap (·.functionCall)

/-- Whether an event is the tool-call callback. -/
def isToolCallEv : TCEvent → Bool
  | .toolCall _ _ _ _ => true
  | _ => false

/-- Whether an event is the error callback. -/
def isErrorEv : TCEvent → Bool
  | .errorCb _ => true
  | _ => false

/-- Number of tool-call callbacks in an event trace. -/
def toolCallCount (evs : List TCEvent) : Nat := evs.countP (fun e => isToolCallEv e)

/-- Number of error callbacks in an event trace. -/
def errorCount (evs : List TCEvent) : Nat := evs.countP (fun e => isErrorEv e)

/-- Session states reachable from a fresh `GeminiTextClient` through any
    sequence of `sendText` and `reset` operations under arbitrary oracles. -/
inductive Reachable : TCState → Prop where
  | init : Reachable {}
  | step (env : TCEnv) (u : String) {s : TCState} :
      Reachable s → Reachable (sendText env s u).state
  | doReset {s : TCState} : Reachable s → Reachable (reset s)

end TextClient

namespace LiveClient

/-- One function call of an inbound `toolCall` frame
    (`{id, name, args}` in `geminiClient.ts`). -/
structure FunctionCall where
  id : String
  name : String
  args : JVal
deriving Repr

/-- One part of an inbound `serverContent.modelTurn`
    (`{text?, inlineData?: {mimeType, data}}`). -/
structure ModelPart where
  text : Option String := none
  inlineData : Option (String × String) := none
deriving Repr

/-- An inbound frame from the upstream live endpoint, as dispatched on by
    `handleGeminiMessage` (a frame may carry several of these concurrently). -/
structure ServerMsg where
  setupComplete : Bool := false
  modelTurnParts : Option (List ModelPart) := none
  turnComplete : Bool := false
  toolCall : Option (List FunctionCall) := none
deriving Repr

/-- Outbound wire messages of the live session (the payloads passed to
    `this.send` by `sendAudio` / `sendText` / `sendToolResponse` /
    `sendInterrupt`). -/
inductive OutMsg where
  | realtimeAudio (data : String)
  | clientTurn (text : String)
  | toolResponse (id name : String) (response : JVal)
  | interruptFrame
deriving Repr, BEq

/-- Observable actions of the live session while handling inbound frames:
    either an upstream send or one of the `GeminiClientCallbacks`.  The
    `interim` flag models the `isPartial` argument of `onTextResponse`. -/
inductive LCEvent where
  | upstreamSend (m : OutMsg)
  | textResponse (t : String) (interim : Bool)
  | audioResponse (d : String)
  | toolCall (id name : String) (args : JVal) (result : Option JVal)
deriving Repr, BEq

/-- Handling of a `serverContent` frame: text parts produce transcript
    callbacks whose partial flag is the negation of `turnComplete`, and
    inline data with an `audio/` mime type produces audio callbacks. -/
def handleModelParts (turnComplete : Bool) : List ModelPart → List LCEvent
  | [] => []
  | p :: rest =>
      let textEvs : List LCEvent :=
        match p.text with
        | some t => if t ≠ "" then [.textResponse t (!turnComplete)] else []
        | none => []
      let audioEvs : List LCEvent :=
        match p.inlineData with
        | some (mime, data) => if mime.startsWith "audio/" then [.audioResponse data] else []
        | none => []
      textEvs ++ audioEvs ++ handleModelParts turnComplete rest

/-- Handling of the function calls of a `toolCall` frame: each call is
    dispatched; on success the result is sent upstream tagged with the call id
    and then the tool-call callback is emitted with the result; on dispatch
    failure an error-shaped result is sent upstream and the callback is still
    emitted with a `null` result.  The dispatch oracle is indexed by the
    number of dispatches already performed. -/
def handleFunctionCalls (dispatch : Nat → String → JVal → Except String JVal) :
    Nat → List FunctionCall → List LCEvent
  | _, [] => []
  | d, fc :: rest =>
      let evs : List LCEvent :=
        match dispatch d fc.name fc.args with
        | .ok r =>
            [.upstreamSend (.toolResponse fc.id fc.name r),
             .toolCall fc.id fc.name fc.args (some r)]
        | .error e =>
            [.upstreamSend (.toolResponse fc.id fc.name (TextClient.errShaped e)),
             .toolCall fc.id fc.name fc.args none]
      evs ++ handleFunctionCalls dispatch (d + 1) rest

/-- `handleGeminiMessage` of `geminiClient.ts`: `serverContent` handling
    followed by `toolCall` handling (the `setupComplete` branch emits
    nothing here; the connected flag is handled by the connect logic). -/
def handleGeminiMessage (dispatch : Nat → String → JVal → Except String JVal)
    (d0 : Nat) (msg : ServerMsg) : List LCEvent :=
  let contentEvs : List LCEvent :=
    match msg.modelTurnParts with
    | some parts => handleModelParts msg.turnComplete parts
    | none => []
  let toolEvs : List LCEvent :=
    match msg.toolCall with
    | some fcs => handleFunctionCalls dispatch d0 fcs
    | none => []
  contentEvs ++ toolEvs

/-- `sendInterrupt()` of `geminiClient.ts`: a no-op unless the session is
    connected; otherwise it sends exactly one `client_content` message with
    `turn_complete: true` and no turns (the agreed interrupt signal). -/
def sendInterrupt (isConnected : Bool) : List OutMsg :=
  if isConnected then [.interruptFrame] else []

/-- `sendText(text)` of `geminiClient.ts`: a no-op unless connected, else one
    `client_content` frame with a single user turn. -/
def sendTextLive (isConnected : Bool) (text : String) : List OutMsg :=
  if isConnected then [.clientTurn text] else []

/-- `sendAudio(data)` of `geminiClient.ts`: a no-op unless connected, else one
    `realtime_input` frame. -/
def sendAudio (isConnected : Bool) (data : String) : List OutMsg :=
  if isConnected then [.realtimeAudio data] else []

/-- Whether a live event is the tool-call callback. -/
def isToolCallL : LCEvent → Bool
  | .toolCall _ _ _ _ => true
  | _ => false

/-- Tool-call callbacks in a live event trace. -/
def toolCallCountL (evs : List LCEvent) : Nat := evs.countP (fun e => isToolCallL e)

end LiveClient

namespace Handler

/-- Messages sent to the browser client (`sendToClient` payloads of
    `clientHandler.ts`). -/
inductive HCEvent where
  | statusConnecting
  | statusReady (textMode : Bool)
  | statusDisconnected
  | transcriptAssistant (t : String) (interim : Bool)
  | transcriptUser (t : String)
  | audioOut (d : String)
  | toolCallMsg (name : String) (args : JVal)
  | itineraryMsg (itin : JVal)
  | sourcesMsg (tool : String)
  | errorMsg (m : String)
deriving Repr, BEq

/-- Per-connection state of `handleClientConnection`: the two session
    variables (`geminiClient` modelled by its `isConnected` flag when
    non-null, `geminiTextClient` by its conversation state when non-null)
    and the three control flags. -/
structure HState where
  geminiClient : Option Bool := none
  textClient : Option TextClient.TCState := none
  isSessionActive : Bool := false
  isInitializing : Bool := false
  useTextFallback : Bool := false
deriving Repr, DecidableEq

/-- Outcome of one `initializeGemini` attempt, decided by the environment:
    the live connect resolves, or it rejects and the fallback client is
    constructed, or it rejects and the fallback construction also throws. -/
inductive ConnectOutcome where
  | liveOk
  | fallbackOk
  | bothFail
deriving Repr, DecidableEq

/-- `initializeGemini` of `clientHandler.ts` (for a still-connected client):
    guarded by `isInitializing`; emits the `connecting` status; on live
    success flips `isSessionActive` and emits `ready`; on live failure sets
    `useTextFallback` and installs a *fresh* `GeminiTextClient` (empty
    history) when fallback construction succeeds, else surfaces an error.
    In every failure branch the failed `GeminiClient` object remains in the
    `geminiClient` variable with its connected flag false. -/
def initializeGemini (o : ConnectOutcome) (s : HState) : HState × List HCEvent :=
  if s.isInitializing then (s, [])
  else
    match o with
    | .liveOk =>
        ({ s with geminiClient := some true, isSessionActive := true,
                  isInitializing := false },
         [.statusConnecting, .statusReady false])
    | .fallbackOk =>
        ({ s with geminiClient := some false, useTextFallback := true,
                  textClient := some {}, isSessionActive := true,
                  isInitializing := false },
         [.statusConnecting, .statusReady true])
    | .bothFail =>
        ({ s with geminiClient := some false, useTextFallback := true,
                  isInitializing := false },
         [.statusConnecting, .errorMsg "Failed to connect to AI service"])

/-- Relay of a fallback-session callback to the client, as implemented in the
    `GeminiTextClient` callback bag of `clientHandler.ts`: a `tool_call`
    message for every tool call, followed by an `itinerary` message when an
    `update_itinerary` result carries a truthy `itinerary` field and by a
    `sources` message for the data-fetching tools. -/
def relayTextEvent (e : TextClient.TCEvent) : List HCEvent :=
  match e with
  | .textResponse t => [.transcriptAssistant t false]
  | .errorCb m => [.errorMsg m]
  | .toolCall _ name args result =>
      let itinEvs : List HCEvent :=
        if name == "update_itinerary" then
          match result with
          | some r =>
              if r.truthy then
                match r with
                | .obj kvs =>
                    match jlookup kvs "itinerary" with
                    | some itin => if itin.truthy then [.itineraryMsg itin] else []
                    | none => []
                | _ => []
              else []
          | none => []
        else []
      let sourceEvs : List HCEvent :=
        if name == "poi_search" || name == "get_city_info" ||
           name == "search_destination_info" then [.sourcesMsg name] else []
      .toolCallMsg name args :: (itinEvs ++ sourceEvs)

/-- Client wire messages handled by the `clientWs.on('message')` switch. -/
inductive ClientMsg where
  | controlStart
  | controlStop
  | controlReset
  | controlInterrupt
  | audioIn (data : String)
  | textIn (data : String)
deriving Repr, DecidableEq

/-- Observable outcome of handling one client message: the new per-connection
    state, the messages sent to the client, the frames sent on the live
    upstream socket, and the `contents` payloads of fallback upstream
    requests. -/
structure HOut where
  state : HState
  events : List HCEvent
  frames : List LiveClient.OutMsg
  requests : List (List Turn)
deriving Repr

/-- The `clientWs.on('message')` handler of `clientHandler.ts`, one client
    message at a time.  `o` decides the outcome of any `initializeGemini`
    attempt triggered by this message and `env` drives the fallback session's
    upstream and dispatcher. -/
def handleClientMessage (env : TextClient.TCEnv) (o : ConnectOutcome)
    (s : HState) (m : ClientMsg) : HOut :=
  match m with
  | .controlStart =>
      if s.geminiClient == none && !s.isSessionActive && !s.isInitializing then
        let (s1, evs) := initializeGemini o s
        ⟨s1, evs, [], []⟩
      else ⟨s, [], [], []⟩
  | .controlStop =>
      if s.geminiClient.isSome then
        ⟨{ s with geminiClient := none, isSessionActive := false }, [], [], []⟩
      else ⟨s, [], [], []⟩
  | .controlReset =>
      let s1 : HState :=
        { s with geminiClient := none, isSessionActive := false,
                 isInitializing := false }
      let (s2, evs) := initializeGemini o s1
      ⟨s2, evs, [], []⟩
  | .controlInterrupt =>
      match s.geminiClient with
      | some c =>
          if s.isSessionActive then ⟨s, [], LiveClient.sendInterrupt c, []⟩
          else ⟨s, [], [], []⟩
      | none => ⟨s, [], [], []⟩
  | .audioIn d =>
      match s.geminiClient with
      | some c =>
          if s.isSessionActive && d ≠ "" then ⟨s, [], LiveClient.sendAudio c d, []⟩
          else ⟨s, [], [], []⟩
      | none => ⟨s, [], [], []⟩
  | .textIn d =>
      if s.isSessionActive && d ≠ "" then
        let userEv : List HCEvent := [.transcriptUser d]
        match s.textClient with
        | some tc =>
            if s.useTextFallback then
              let run := TextClient.sendText env tc d
              ⟨{ s with textClient := some run.state },
               userEv ++ run.events.flatMap relayTextEvent, [], run.requests⟩
            else
              match s.geminiClient with
              | some c => ⟨s, userEv, LiveClient.sendTextLive c d, []⟩
              | none => ⟨s, userEv, [], []⟩
        | none =>
            match s.geminiClient with
            | some c => ⟨s, userEv, LiveClient.sendTextLive c d, []⟩
            | none => ⟨s, userEv, [], []⟩
      else ⟨s, [], [], []⟩

end Handler

namespace ToolDefs

/-- The `items: {type}` sub-schema of an array-typed parameter. -/
structure PropItems where
  type : String
deriving Repr, DecidableEq

/-- One parameter property of a tool declaration
    (`{type, description, enum?, items?}`). -/
structure PropSchema where
  type : Option String := none
  description : Option String := none
  enum : Option (List String) := none
  items : Option PropItems := none
deriving Repr, DecidableEq

/-- The `parameters` object of a tool declaration. -/
structure ToolParameters where
  type : String
  properties : List (String × PropSchema)
  required : Option (List String) := none
deriving Repr, DecidableEq

/-- A tool declaration (`ToolDefinition` of `toolDefinitions.ts`). -/
structure ToolDefinition where
  name : String
  description : String
  parameters : ToolParameters
deriving Repr, DecidableEq

/-- Shorthand for a string-typed property. -/
def strProp (d : String) : PropSchema := { type := some "string", description := some d }

/-- Shorthand for a string-typed property with an enum. -/
def enumProp (d : String) (vs : List String) : PropSchema :=
  { type := some "string", description := some d, enum := some vs }

/-- The declared tool catalog (`toolDefinitions` of `toolDefinitions.ts`),
    with the declared lower-case `type` values. -/
def toolDefinitions : List ToolDefinition :=
  [ { name := "poi_search",
      description := "Search for points of interest at a destination. Use this to find restaurants, attractions, temples, markets, and other places based on category and user interests.",
      parameters :=
        { type := "object",
          properties :=
            [ ("destination", strProp "The city/destination to search in (e.g., \"Jaipur, India\", \"Paris, France\")"),
              ("category", enumProp "The category of POI to search for"
                ["restaurant", "attraction", "temple", "market", "museum", "park", "hotel"]),
              ("interests",
               { type := some "array",
                 description := some "User interests to filter results (e.g., [\"vegetarian\", \"historical\", \"photography\"])",
                 items := some ⟨"string"⟩ }),
              ("limit", { type := some "number",
                          description := some "Maximum number of results to return (default: 5)" }) ],
          required := some ["destination", "category"] } },
    { name := "update_itinerary",
      description := "Update the travel itinerary. Use this to add, modify, or remove activities from specific days. Always call this when the user asks to change their trip plan.",
      parameters :=
        { type := "object",
          properties :=
            [ ("action", enumProp "The type of update to perform"
                ["set", "add_activity", "remove_activity", "update_activity", "clear_day"]),
              ("day_number", { type := some "integer",
                               description := some "The day number to update (1-indexed)" }),
              ("time_slot", enumProp "Time slot for the activity"
                ["Morning", "Afternoon", "Evening"]),
              ("poi_name", strProp "Name of the place/activity"),
              ("duration_minutes", { type := some "integer",
                                     description := some "Expected duration in minutes" }),
              ("notes", strProp "Additional notes or tips"),
              ("destination", strProp "Destination city (for set action)"),
              ("name", strProp "A creative, memorable name for the trip itinerary (e.g., \"Pink City Adventure\", \"Roman Holiday\", \"Tokyo Food Trail\"). Generate this based on the destination and trip theme."),
              ("itinerary_json", strProp "JSON string of full itinerary when action is \"set\"") ],
          required := some ["action"] } },
    { name := "get_city_info",
      description := "Get general information about a destination including travel tips, safety info, best times to visit, local customs, and etiquette. Use this for background context.",
      parameters :=
        { type := "object",
          properties :=
            [ ("destination", strProp "The city/destination to get information about (e.g., \"Jaipur\", \"Paris\")"),
              ("topic", enumProp "The topic to get information about"
                ["overview", "safety", "weather", "customs", "transport", "food", "shopping", "history"]) ],
          required := some ["destination", "topic"] } },
    { name := "get_weather",
      description := "Get weather forecast for a destination for trip planning. Returns temperature, conditions, and recommendations.",
      parameters :=
        { type := "object",
          properties :=
            [ ("destination", strProp "The city/destination to get weather for (e.g., \"Jaipur, India\", \"Paris, France\")"),
              ("date", strProp "Date in YYYY-MM-DD format (within next 7 days)") ],
          required := some ["destination", "date"] } },
    { name := "calculate_travel_time",
      description := "Calculate estimated travel time between two locations at a destination.",
      parameters :=
        { type := "object",
          properties :=
            [ ("destination", strProp "The city/destination where the locations are (e.g., \"Jaipur\", \"Paris\")"),
              ("from_poi", strProp "Starting location name"),
              ("to_poi", strProp "Destination location name"),
              ("mode", enumProp "Mode of transport (default: taxi)"
                ["auto", "taxi", "walking"]) ],
          required := some ["destination", "from_poi", "to_poi"] } },
    { name := "search_destination_info",
      description := "Search the web for detailed information about a destination. Use this to get up-to-date travel information, top attractions, local tips, and cultural insights for any destination worldwide. Always use this before planning a trip to a new destination.",
      parameters :=
        { type := "object",
          properties :=
            [ ("destination", strProp "The city or destination to search for (e.g., \"Tokyo, Japan\", \"Barcelona, Spain\")"),
              ("query_type", enumProp "Type of information to search for"
                ["overview", "attractions", "food", "culture", "tips", "neighborhoods"]) ],
          required := some ["destination", "query_type"] } } ]

/-- `String.prototype.toUpperCase()` on the ASCII type names, computed over
    the character list so that it evaluates by reduction. -/
def jsToUpperCase (s : String) : String := String.mk (s.data.map Char.toUpper)

/-- `convertType` of `toolDefinitions.ts`: upper-case the type string. -/
def convertType (t : String) : String := jsToUpperCase t

/-- `convertProperties` for one property: copy `type` (upper-cased),
    `description`, `enum` and `items` (with upper-cased item type), each only
    when the source field is truthy. -/
def convertProp (p : PropSchema) : PropSchema :=
  { type :=
      match p.type with
      | some t => if t ≠ "" then some (convertType t) else none
      | none => none,
    description :=
      match p.description with
      | some d => if d ≠ "" then some d else none
      | none => none,
    enum := p.enum,
    items :=
      match p.items with
      | some it => some ⟨convertType it.type⟩
      | none => none }

/-- `convertToGeminiFormat` of `toolDefinitions.ts`. -/
def convertToGeminiFormat (tool : ToolDefinition) : ToolDefinition :=
  { name := tool.name,
    description := tool.description,
    parameters :=
      { type := convertType tool.parameters.type,
        properties := tool.parameters.properties.map (fun kv => (kv.1, convertProp kv.2)),
        required := tool.parameters.required } }

/-- The tool catalog object shared by both upstream modes
    (`{functionDeclarations: [...]}`). -/
structure GeminiTools where
  functionDeclarations : List ToolDefinition
deriving Repr, DecidableEq

/-- `getToolsForGemini` of `toolDefinitions.ts`: the converted catalog. -/
def getToolsForGemini : GeminiTools :=
  ⟨toolDefinitions.map convertToGeminiFormat⟩

/-- The live setup frame (`sendSetupMessage` of `geminiClient.ts`):
    `{setup: {model, system_instruction, tools: [getToolsForGemini()]}}`. -/
structure SetupMessage where
  model : String
  systemInstructionText : String
  tools : List GeminiTools
deriving Repr

/-- `sendSetupMessage`'s payload for a given system instruction. -/
def sendSetupMessage (systemInstruction : String) : SetupMessage :=
  { model := "models/gemini-2.5-flash-latest",
    systemInstructionText := systemInstruction,
    tools := [getToolsForGemini] }

/-- The fallback request body (`callGeminiAPI` of `geminiTextClient.ts`):
    `{contents, systemInstruction, tools: [tools], generationConfig}`; the
    generation config carries temperature 0.7 and 2048 max output tokens. -/
structure FallbackRequestBody where
  contents : List Turn
  systemInstructionText : String
  tools : List GeminiTools
  temperature : Rat
  maxOutputTokens : Int
deriving Repr

/-- The request body built by `callGeminiAPI` for a given history. -/
def callGeminiAPIBody (history : List Turn) (systemInstruction : String) : FallbackRequestBody :=
  { contents := history,
    systemInstructionText := systemInstruction,
    tools := [getToolsForGemini],
    temperature := (7 : Rat) / 10,
    maxOutputTokens := 2048 }

end ToolDefs

namespace Itin

/-- An activity of an itinerary day.  Every field is optional because the
    runtime objects are built from partial updates (`Partial<Activity>` casts
    in `itineraryBuilder.ts` / `toolExecutor.ts`); JavaScript numbers are
    modelled by `Rat`. -/
structure PActivity where
  time_slot : Option String := none
  poi_name : Option String := none
  poi_id : Option String := none
  duration_minutes : Option Rat := none
  travel_time_to_next : Option Rat := none
  notes : Option String := none
  source : Option String := none
  lat : Option Rat := none
  lon : Option Rat := none
deriving Repr, DecidableEq

/-- One day of an itinerary (`Day` of `itineraryBuilder.ts`). -/
structure Day where
  day_number : Rat
  date : Option String := none
  activities : List PActivity := []
deriving Repr, DecidableEq

/-- A source entry of an itinerary (`Source` of `itineraryBuilder.ts`). -/
structure Source where
  id : String
  type : String
  url : Option String := none
  title : String
deriving Repr, DecidableEq

/-- The itinerary record (`Itinerary` of `itineraryBuilder.ts`). -/
structure Itinerary where
  name : Option String := none
  destination : String := ""
  days : List Day := []
  sources : List Source := []
deriving Repr, DecidableEq, Inhabited

/-- A point of interest as consumed by the itinerary builder (`POI` of
    `poiSearch.ts`; the optional metadata fields unused by the embedded code
    are omitted). -/
structure POI where
  id : String
  name : String
  category : String
  lat : Rat
  lon : Rat
  source : String := "osm"
deriving Repr, DecidableEq

/-- Floating-point collaborators of the itinerary code, abstracted over `Rat`:
    the haversine `calculateDistance`, `estimateTravelTime(distance, mode)`
    and the `Math.random`-driven `generateActivityNote`. -/
structure GeoEnv where
  calcDistance : Rat → Rat → Rat → Rat → Rat
  estTravel : Rat → String → Rat
  pickNote : POI → String

/-- Truthiness of an optional numeric field (`current.lat && ...`):
    absent or zero is falsy. -/
def qTruthy : Option Rat → Bool
  | some q => q != 0
  | none => false

/-- Truthiness of an optional string field. -/
def optTruthy : Option String → Bool
  | some s => s != ""
  | none => false

/-- Apply `f` to the first list element satisfying `p` (the effect of
    mutating the object returned by `Array.prototype.find` /
    the element at `findIndex`). -/
def updateFirst (p : α → Bool) (f : α → α) : List α → List α
  | [] => []
  | x :: xs => if p x then f x :: xs else x :: updateFirst p f xs

/-- JavaScript object spread `{...old, ...patch}` for activities: fields
    present in the patch win. -/
def mergePActivity (old patch : PActivity) : PActivity :=
  { time_slot := patch.time_slot.orElse fun _ => old.time_slot,
    poi_name := patch.poi_name.orElse fun _ => old.poi_name,
    poi_id := patch.poi_id.orElse fun _ => old.poi_id,
    duration_minutes := patch.duration_minutes.orElse fun _ => old.duration_minutes,
    travel_time_to_next := patch.travel_time_to_next.orElse fun _ => old.travel_time_to_next,
    notes := patch.notes.orElse fun _ => old.notes,
    source := patch.source.orElse fun _ => old.source,
    lat := patch.lat.orElse fun _ => old.lat,
    lon := patch.lon.orElse fun _ => old.lon }

/-- The travel-time recomputation loop at the end of `updateItinerary`: for
    each consecutive pair of activities with truthy coordinates, set the
    first one's `travel_time_to_next`. -/
def recomputeTravel (env : GeoEnv) : List PActivity → List PActivity
  | [] => []
  | [a] => [a]
  | a :: b :: rest =>
      let tt := env.estTravel
        (env.calcDistance (a.lat.getD 0) (a.lon.getD 0) (b.lat.getD 0) (b.lon.getD 0)) "auto"
      let a' :=
        if qTruthy a.lat && qTruthy a.lon && qTruthy b.lat && qTruthy b.lon then
          { a with travel_time_to_next := some tt }
        else a
      a' :: recomputeTravel env (b :: rest)

/-- `updateItinerary` of `itineraryBuilder.ts`, as a pure function on the
    deep-cloned value: the four action branches followed by the travel-time
    recomputation.  `dayNumber` and `activity` are the optional arguments;
    the JavaScript guards `if (dayNumber && activity)` etc. are modelled by
    explicit truthiness checks (so `day_number = 0` disables the update). -/
def updateItinerary (env : GeoEnv) (itinerary : Itinerary) (action : String)
    (dayNumber : Option Rat) (activity : Option PActivity) : Itinerary :=
  let updated := itinerary
  let updated :=
    if action == "add_activity" then
      match dayNumber, activity with
      | some n, some a =>
          if n != 0 then
            let le := fun (d1 d2 : Day) => decide (d1.day_number ≤ d2.day_number)
            let days1 :=
              if (updated.days.find? (fun d => d.day_number == n)).isSome then updated.days
              else (updated.days ++ [({ day_number := n, activities := [] } : Day)]).mergeSort le
            let days2 := updateFirst (fun d => d.day_number == n)
              (fun d => { d with activities := d.activities ++ [a] }) days1
            { updated with days := days2 }
          else updated
      | _, _ => updated
    else if action == "remove_activity" then
      match dayNumber, activity with
      | some n, some a =>
          if n != 0 && optTruthy a.poi_name then
            let days2 := updateFirst (fun d => d.day_number == n)
              (fun d => { d with activities := d.activities.filter (fun x => x.poi_name != a.poi_name) })
              updated.days
            { updated with days := days2 }
          else updated
      | _, _ => updated
    else if action == "update_activity" then
      match dayNumber, activity with
      | some n, some a =>
          if n != 0 && optTruthy a.poi_name then
            let patch := fun (d : Day) =>
              let acts := updateFirst (fun x => x.poi_name == a.poi_name)
                (fun x => mergePActivity x a) d.activities
              { d with activities := acts }
            let days2 := updateFirst (fun d => d.day_number == n) patch updated.days
            { updated with days := days2 }
          else updated
      | _, _ => updated
    else if action == "clear_day" then
      match dayNumber with
      | some n =>
          if n != 0 then
            let days2 := updateFirst (fun d => d.day_number == n)
              (fun d => { d with activities := [] }) updated.days
            { updated with days := days2 }
          else updated
      | none => updated
    else updated
  { updated with days := updated.days.map (fun d => { d with activities := recomputeTravel env d.activities }) }

/-- Object identities for the frame property: a heap of itinerary objects
    addressed by index.  `updateItineraryHeap` models the call
    `updated = JSON.parse(JSON.stringify(itinerary)); ...mutate updated...;
    return updated`: the clone is a fresh allocation, every mutation of the
    body targets the clone, and the caller receives a reference to it. -/
def updateItineraryHeap (env : GeoEnv) (heap : List Itinerary) (r : Nat)
    (action : String) (dayNumber : Option Rat) (activity : Option PActivity) :
    List Itinerary × Nat :=
  (heap ++ [updateItinerary env (heap.getD r default) action dayNumber activity],
   heap.length)

/-- `DEFAULT_DURATIONS` of `itineraryBuilder.ts`. -/
def DEFAULT_DURATIONS : List (String × Rat) :=
  [("attraction", 90), ("temple", 60), ("museum", 120), ("restaurant", 60),
   ("market", 90), ("park", 60), ("hotel", 0)]

/-- `DEFAULT_DURATIONS[poi.category] || 60`: an absent category — and also the
    falsy `hotel: 0` entry — yields 60. -/
def durationFor (category : String) : Rat :=
  let v := ((DEFAULT_DURATIONS.find? (fun e => e.1 == category)).map (·.2)).getD 0
  if v != 0 then v else 60

/-- The activity object built for one POI inside `buildItinerary`
    (`timeSlots[i % timeSlots.length]` etc.). -/
def mkActivity (env : GeoEnv) (i : Nat) (poi : POI) : PActivity :=
  { time_slot := some (["Morning", "Afternoon", "Evening"].getD (i % 3) "Morning"),
    poi_name := some poi.name,
    poi_id := some poi.id,
    duration_minutes := some (durationFor poi.category),
    notes := some (env.pickNote poi),
    source := some (if poi.source == "osm" then "OpenStreetMap" else "Local Guide"),
    lat := some poi.lat,
    lon := some poi.lon }

/-- Push an activity onto a day being built, setting the previous activity's
    `travel_time_to_next` when both coordinate pairs are truthy. -/
def pushWithTravel (env : GeoEnv) (acc : List PActivity) (a : PActivity) : List PActivity :=
  match acc.getLast? with
  | none => [a]
  | some prev =>
      let tt := env.estTravel
        (env.calcDistance (prev.lat.getD 0) (prev.lon.getD 0) (a.lat.getD 0) (a.lon.getD 0)) "auto"
      if qTruthy prev.lat && qTruthy prev.lon && qTruthy a.lat && qTruthy a.lon then
        acc.dropLast ++ [{ prev with travel_time_to_next := some tt }, a]
      else acc ++ [a]

/-- The source entry recorded for one POI inside `buildItinerary`. -/
def mkSource (poi : POI) : Source :=
  { id := poi.id,
    type := if poi.source == "osm" then "osm" else "wikivoyage",
    title := poi.name,
    url := if poi.source == "osm" then
             some ("https://www.openstreetmap.org/node/" ++ (poi.id.replace "osm_" ""))
           else none }

/-- The inner loop of `buildItinerary` for one day: consume up to
    `apd` POIs, build their activities and record their sources. -/
def buildDay (env : GeoEnv) (apd : Nat) (pois : List POI) (sources : List Source) :
    List PActivity × List POI × List Source :=
  let todays := pois.take apd
  let acts := todays.enum.foldl
    (fun acc (p : Nat × POI) => pushWithTravel env acc (mkActivity env p.1 p.2)) []
  let sources' := todays.foldl
    (fun srcs poi =>
      if (srcs.find? (fun s => s.id == poi.id)).isSome then srcs
      else srcs ++ [mkSource poi]) sources
  (acts, pois.drop apd, sources')

/-- `buildItinerary` of `itineraryBuilder.ts`: `activitiesPerDay` from the
    pace (an unrecognised pace makes the inner loop bound `undefined`, i.e.
    zero iterations), one day per `dayNum ≤ numDays`, and the hard-coded
    name and destination of the returned record. -/
def buildItinerary (env : GeoEnv) (pois : List POI) (numDays : Rat) (pace : String) : Itinerary :=
  let apd : Nat :=
    if pace == "relaxed" then 2
    else if pace == "moderate" then 3
    else if pace == "active" then 4
    else 0
  let steps := (max 0 numDays.floor).toNat
  let init : List Day × List POI × List Source := ([], pois, [])
  let (days, _, sources) := (List.range steps).foldl
    (fun (st : List Day × List POI × List Source) k =>
      let (ds, rem, srcs) := st
      let (acts, rem', srcs') := buildDay env apd rem srcs
      (ds ++ [{ day_number := ((k : Int) + 1 : Int), activities := acts }], rem', srcs'))
    init
  { name := some "Pink City Adventure", destination := "Jaipur",
    days := days, sources := sources }

end Itin

namespace ToolExec

open Itin

/-- JSON encoding of an activity (fields present only when set, matching the
    in-memory objects the executor returns to its callers). -/
def activityToJVal (a : PActivity) : JVal :=
  .obj ((a.time_slot.map (fun v => ("time_slot", JVal.str v))).toList ++
        (a.poi_name.map (fun v => ("poi_name", JVal.str v))).toList ++
        (a.poi_id.map (fun v => ("poi_id", JVal.str v))).toList ++
        (a.duration_minutes.map (fun v => ("duration_minutes", JVal.num v))).toList ++
        (a.travel_time_to_next.map (fun v => ("travel_time_to_next", JVal.num v))).toList ++
        (a.notes.map (fun v => ("notes", JVal.str v))).toList ++
        (a.source.map (fun v => ("source", JVal.str v))).toList ++
        (a.lat.map (fun v => ("lat", JVal.num v))).toList ++
        (a.lon.map (fun v => ("lon", JVal.num v))).toList)

/-- JSON encoding of a day. -/
def dayToJVal (d : Day) : JVal :=
  .obj ([("day_number", JVal.num d.day_number)] ++
        (d.date.map (fun v => ("date", JVal.str v))).toList ++
        [("activities", JVal.arr (d.activities.map activityToJVal))])

/-- JSON encoding of a source entry. -/
def sourceToJVal (s : Itin.Source) : JVal :=
  .obj ([("id", JVal.str s.id), ("type", JVal.str s.type)] ++
        (s.url.map (fun v => ("url", JVal.str v))).toList ++
        [("title", JVal.str s.title)])

/-- JSON encoding of an itinerary. -/
def itineraryToJVal (it : Itinerary) : JVal :=
  .obj ((it.name.map (fun v => ("name", JVal.str v))).toList ++
        [("destination", JVal.str it.destination),
         ("days", JVal.arr (it.days.map dayToJVal)),
         ("sources", JVal.arr (it.sources.map sourceToJVal))])

/-- JSON encoding of a POI result entry. -/
def poiToJVal (p : POI) : JVal :=
  .obj [("id", .str p.id), ("name", .str p.name), ("category", .str p.category),
        ("lat", .num p.lat), ("lon", .num p.lon), ("source", .str p.source)]

/-- An error-shaped result value (`{success: false, error}`). -/
def mkFail (msg : String) : JVal :=
  .obj [("success", .bool false), ("error", .str msg)]

/-- Oracles for the Tool Dispatcher: the external collaborators invoked with
    `await` (each may reject, modelled by `.error`), the `JSON.parse` +
    unchecked casts of untyped argument values, and the floating-point
    helpers shared with the itinerary builder. -/
structure ToolEnv where
  geo : GeoEnv
  searchPOIs : String → String → Option (List String) → Rat → Except String (List POI)
  getCityInfo : String → String → Except String (String × String)
  getWeather : String → String → Except String JVal
  searchDestinationInfo : String → String → Except String (String × JVal)
  parseItinerary : String → Option Itinerary
  castItinerary : JVal → Option Itinerary
  castActivity : JVal → Option PActivity
  castPOIs : JVal → List POI

/-- Module-level mutable state of `toolExecutor.ts`: the itinerary singleton
    and the POI-coordinate lookup table. -/
structure ToolState where
  currentItinerary : Option Itinerary := none
  poiCoordinates : List (String × Rat × Rat) := []
deriving Repr

/-- `Map.prototype.set`: overwrite in place or append. -/
def mapSet (m : List (String × Rat × Rat)) (k : String) (v : Rat × Rat) :
    List (String × Rat × Rat) :=
  if (m.find? (fun e => e.1 == k)).isSome then
    m.map (fun e => if e.1 == k then (k, v) else e)
  else m ++ [(k, v)]

/-- `Map.prototype.get`. -/
def mapGet (m : List (String × Rat × Rat)) (k : String) : Option (Rat × Rat) :=
  (m.find? (fun e => e.1 == k)).map (·.2)

/-- `Math.round`: nearest integer, halves toward positive infinity. -/
def jsRound (x : Rat) : Int := (x + 1/2).floor

/-- `Math.round(distance * 10) / 10`. -/
def roundTenth (x : Rat) : Rat := ((jsRound (x * 10) : Int) : Rat) / 10

/-- The `update_itinerary` case of `executeToolCall` (lines 49–157 of
    `toolExecutor.ts`): the `set` action, initialisation or in-place update
    of the singleton's destination and name, activity construction from flat
    parameters, the `build` action, and the final `updateItinerary`
    delegation.  Returns the new singleton value and the result object. -/
def execUpdateItinerary (env : ToolEnv) (cur0 : Option Itinerary)
    (args : List (String × JVal)) : Option Itinerary × JVal := Id.run do
  let action := jstr args "action"
  let mut cur := cur0
  if action == "set" then
    if jtruthy args "itinerary_json" then
      match env.parseItinerary (jstr args "itinerary_json") with
      | none => return (cur, mkFail "Invalid itinerary_json format")
      | some it => cur := some it
    else if jtruthy args "full_itinerary" then
      cur := env.castItinerary ((jlookup args "full_itinerary").getD .null)
    match cur with
    | some it =>
        let it :=
          if jtruthy args "name" then { it with name := some (jstr args "name") }
          else if !(optTruthy it.name) && it.destination != "" then
            { it with name := some (it.destination ++ " Adventure") }
          else it
        return (some it,
          .obj [("success", .bool true), ("itinerary", itineraryToJVal it),
                ("message", .str "Itinerary set successfully")])
    | none => pure ()
  let itin : Itinerary :=
    match cur with
    | none =>
        let destination := if jtruthy args "destination" then jstr args "destination" else "Unknown"
        let name := if jtruthy args "name" then jstr args "name" else destination ++ " Trip"
        { name := some name, destination := destination, days := [], sources := [] }
    | some it0 =>
        let it1 := if jtruthy args "destination" then { it0 with destination := jstr args "destination" } else it0
        let it2 := if jtruthy args "name" then { it1 with name := some (jstr args "name") } else it1
        if !(optTruthy it2.name) && it2.destination != "" then
          { it2 with name := some (it2.destination ++ " Adventure") }
        else it2
  let dayNumber : Option Rat :=
    match jlookup args "day_number" with
    | some (.num n) => some n
    | _ => none
  let activity0 : Option PActivity := (jlookup args "activity").bind env.castActivity
  let activity : Option PActivity :=
    if activity0.isNone && (jtruthy args "poi_name" || jtruthy args "time_slot") then
      let dm := jnum args "duration_minutes"
      some { time_slot := some (if jtruthy args "time_slot" then jstr args "time_slot" else "Morning"),
             poi_name := (match jlookup args "poi_name" with
                          | some (.str s) => some s
                          | _ => none),
             duration_minutes := some (if dm != 0 then dm else 60),
             notes := some (if jtruthy args "notes" then jstr args "notes" else "") }
    else activity0
  if action == "build" && jtruthy args "num_days" then
    let numDays := jnum args "num_days"
    let pois := env.castPOIs ((jlookup args "pois").getD .null)
    let pace : String :=
      match jlookup args "preferences" with
      | some (.obj kvs) =>
          (match jlookup kvs "pace" with
           | some (.str p) => p
           | some _ => ""
           | none => "moderate")
      | _ => "moderate"
    let built := buildItinerary env.geo pois numDays pace
    return (some built,
      .obj [("success", .bool true), ("itinerary", itineraryToJVal built),
            ("message", .str ("Built " ++ toString numDays ++ "-day itinerary"))])
  let final := updateItinerary env.geo itin action dayNumber activity
  return (some final,
    .obj [("success", .bool true), ("itinerary", itineraryToJVal final),
          ("message", .str ("Itinerary updated: " ++ action))])

/-- The `params.interests as string[] | undefined` extraction of the
    `poi_search` case. -/
def poiInterests (args : List (String × JVal)) : Option (List String) :=
  match jlookup args "interests" with
  | some (.arr xs) => some (xs.filterMap (fun v => match v with | .str t => some t | _ => none))
  | _ => none

/-- The `(params.limit as number) || 5` extraction of the `poi_search` case. -/
def poiLimit (args : List (String × JVal)) : Rat :=
  let lim := jnum args "limit"
  if lim != 0 then lim else 5

/-- `executeToolCall(toolName, args)` of `toolExecutor.ts`: the dispatch
    switch.  An `Except.error` models a rejected promise (a thrown error);
    note that the unknown-tool default and the missing-destination guards
    *return* `{success: false, ...}` results rather than throwing. -/
def executeToolCall (env : ToolEnv) (s : ToolState) (toolName : String)
    (args : List (String × JVal)) : Except String (ToolState × JVal) :=
  if toolName == "poi_search" then
    if !(jtruthy args "destination") then
      .ok (s, mkFail "Destination is required for POI search")
    else
      let destination := jstr args "destination"
      let category := jstr args "category"
      match env.searchPOIs destination category (poiInterests args) (poiLimit args) with
      | .error e => .error e
      | .ok pois =>
          let coords := pois.foldl
            (fun m poi => mapSet m poi.name.toLower (poi.lat, poi.lon)) s.poiCoordinates
          .ok ({ s with poiCoordinates := coords },
               .obj [("success", .bool true), ("destination", .str destination),
                     ("results", .arr (pois.map poiToJVal)),
                     ("count", .num (pois.length : Int)),
                     ("source", .str "OpenStreetMap")])
  else if toolName == "update_itinerary" then
    let (cur', res) := execUpdateItinerary env s.currentItinerary args
    .ok ({ s with currentItinerary := cur' }, res)
  else if toolName == "get_city_info" then
    if !(jtruthy args "destination") then
      .ok (s, mkFail "Destination is required for city info")
    else
      let destination := jstr args "destination"
      let topic := jstr args "topic"
      match env.getCityInfo destination topic with
      | .error e => .error e
      | .ok (content, source) =>
          .ok (s, .obj [("success", .bool true), ("destination", .str destination),
                        ("topic", .str topic), ("content", .str content),
                        ("source", .str source)])
  else if toolName == "get_weather" then
    if !(jtruthy args "destination") then
      .ok (s, mkFail "Destination is required for weather")
    else
      match env.getWeather (jstr args "destination") (jstr args "date") with
      | .error e => .error e
      | .ok w => .ok (s, .obj [("success", .bool true), ("weather", w)])
  else if toolName == "calculate_travel_time" then
    match jlookup args "from_poi", jlookup args "to_poi" with
    | some (.str f), some (.str t) =>
        let fromPoi := f.toLower
        let toPoi := t.toLower
        let m0 := jstr args "mode"
        let mode := if m0 != "" then m0 else "auto"
        match mapGet s.poiCoordinates fromPoi, mapGet s.poiCoordinates toPoi with
        | some fc, some tc =>
            let distance := env.geo.calcDistance fc.1 fc.2 tc.1 tc.2
            let travelTime := env.geo.estTravel distance mode
            .ok (s, .obj [("success", .bool true), ("from", .str f), ("to", .str t),
                          ("distance_km", .num (roundTenth distance)),
                          ("travel_time_minutes", .num travelTime),
                          ("mode", .str mode)])
        | _, _ =>
            .ok (s, mkFail "Location coordinates not found. Please search for POIs first.")
    | _, _ => .error "TypeError: toLowerCase is not a function"
  else if toolName == "search_destination_info" then
    if !(jtruthy args "destination") then
      .ok (s, mkFail "Destination is required for web search")
    else
      let destination := jstr args "destination"
      let queryType := jstr args "query_type"
      match env.searchDestinationInfo destination queryType with
      | .error e => .error e
      | .ok (content, sources) =>
          .ok (s, .obj [("success", .bool true), ("destination", .str destination),
                        ("query_type", .str queryType), ("content", .str content),
                        ("sources", sources)])
  else
    .ok (s, mkFail ("Unknown tool: " ++ toolName))

end ToolExec

/-! Concrete environments and runs used to evaluate the models on specific
    inputs. -/

/-- A fallback environment whose upstream always answers with one plain text
    part and whose dispatcher always succeeds. -/
def envFb : TextClient.TCEnv :=
  { api := fun _ _ => .ok { error := none, candidates := [[{ text := some "Hi there" }]] },
    dispatch := fun _ _ _ => .ok .null }

/-- A fallback environment whose first response is a single bare function-call
    part (no text part) and whose later responses are empty. -/
def envBareFc : TextClient.TCEnv :=
  { api := fun i _ =>
      if i == 0 then .ok { candidates := [[{ functionCall := some ("poi_search", .null) }]] }
      else .ok {},
    dispatch := fun _ _ _ => .ok .null }

/-- A fallback environment whose first response carries two function-call
    parts and whose later responses are empty. -/
def envTwoFc : TextClient.TCEnv :=
  { api := fun i _ =>
      if i == 0 then
        .ok { candidates := [[{ functionCall := some ("get_weather", .null) },
                              { functionCall := some ("poi_search", .null) }]] }
      else .ok {},
    dispatch := fun _ _ _ => .ok .null }

/-- A fallback environment whose first response carries one function-call part
    and whose every later request fails at the transport layer. -/
def envFollowupFail : TextClient.TCEnv :=
  { api := fun i _ =>
      if i == 0 then .ok { candidates := [[{ functionCall := some ("get_weather", .null) }]] }
      else .error "network down",
    dispatch := fun _ _ _ => .ok .null }

/-- A fallback environment used for witnesses: first response has a text part
    followed by a function-call part, later responses are empty; the
    dispatcher fails. -/
def envMixed : TextClient.TCEnv :=
  { api := fun i _ =>
      if i == 0 then
        .ok { candidates := [[{ text := some "Checking" },
                              { functionCall := some ("get_weather", .null) }]] }
      else .ok {},
    dispatch := fun _ _ _ => .error "weather service down" }

/-- The session-manager state after the initial connect attempt degraded to
    fallback. -/
def fbReadyState : Handler.HState := (Handler.initializeGemini .fallbackOk {}).1

/-- The state after one fallback text turn in `fbReadyState`. -/
def fbAfterTurn : Handler.HState :=
  (Handler.handleClientMessage envFb .fallbackOk fbReadyState (.textIn "Plan a trip")).state

/-- The state after a `reset` in `fbAfterTurn` whose re-connect attempt
    succeeds on the live leg. -/
def fbAfterReset : Handler.HState :=
  (Handler.handleClientMessage envFb .liveOk fbAfterTurn .controlReset).state

/-- The handling of the next user text turn after that reset. -/
def fbNextTurn : Handler.HOut :=
  Handler.handleClientMessage envFb .liveOk fbAfterReset (.textIn "Hello again")

/-- Trivial floating-point collaborators. -/
def geoEnv0 : Itin.GeoEnv :=
  { calcDistance := fun _ _ _ _ => 0, estTravel := fun _ _ => 10, pickNote := fun _ => "note" }

/-- A dispatcher environment with inert collaborators. -/
def toolEnv0 : ToolExec.ToolEnv :=
  { geo := geoEnv0,
    searchPOIs := fun _ _ _ _ => .ok [],
    getCityInfo := fun _ _ => .ok ("", ""),
    getWeather := fun _ _ => .ok .null,
    searchDestinationInfo := fun _ _ => .ok ("", .arr []),
    parseItinerary := fun _ => none,
    castItinerary := fun _ => none,
    castActivity := fun _ => none,
    castPOIs := fun _ => [] }

/-- A dispatcher environment whose POI collaborator rejects. -/
def toolEnvErr : ToolExec.ToolEnv :=
  { toolEnv0 with searchPOIs := fun _ _ _ _ => .error "overpass timeout" }

/-- A live dispatch oracle that succeeds on the first call and fails on every
    later one. -/
def liveDispatch0 : Nat → String → JVal → Except String JVal :=
  fun d _ _ => if d == 0 then .ok (.str "ok") else .error "boom"

/-- A two-call `toolCall` frame. -/
def twoCallFrame : LiveClient.ServerMsg :=
  { toolCall := some [⟨"id1", "get_weather", .null⟩, ⟨"id2", "poi_search", .null⟩] }

/-- A fallback environment whose upstream always fails at the transport
    layer. -/
def envApiFail : TextClient.TCEnv :=
  { api := fun _ _ => .error "connect reset", dispatch := fun _ _ _ => .ok .null }

/-- A fallback environment whose upstream always returns an error-shaped
    response body. -/
def envDecodeErr : TextClient.TCEnv :=
  { api := fun _ _ => .ok { error := some "bad request", candidates := [] },
    dispatch := fun _ _ _ => .ok .null }

/-- The session-manager state after a successful live connect. -/
def liveReadyState : Handler.HState := (Handler.initializeGemini .liveOk {}).1

/-! Lemmas about the fallback session. -/

namespace TextClient

theorem appendTextParts_counts (s : TCState) (parts : List ContentPart) :
    toolCallCount (appendTextParts s parts).2 = 0 ∧
    errorCount (appendTextParts s parts).2 = 0 := by
  induction parts generalizing s with
  | nil => simp [appendTextParts, toolCallCount, errorCount]
  | cons p rest ih =>
      cases hp : p.text with
      | none =>
          simp only [appendTextParts, hp]
          exact ih s
      | some t =>
          by_cases ht : t = ""
          · simp only [appendTextParts, hp, ht]
            simpa using ih s
          · simp only [appendTextParts, hp, if_pos ht]
            have h := ih { s with history := s.history ++ [⟨"model", t⟩] }
            constructor
            · simpa [toolCallCount, List.countP_cons, isToolCallEv] using h.1
            · simpa [errorCount, List.countP_cons, isErrorEv] using h.2

theorem appendTextParts_history (s : TCState) (parts : List ContentPart) :
    ∃ rest, (appendTextParts s parts).1.history = s.history ++ rest := by
  induction parts generalizing s with
  | nil => exact ⟨[], by simp [appendTextParts]⟩
  | cons p rest ih =>
      cases hp : p.text with
      | none =>
          simp only [appendTextParts, hp]
          exact ih s
      | some t =>
          by_cases ht : t = ""
          · simp only [appendTextParts, hp, ht]
            simpa using ih s
          · simp only [appendTextParts, hp, if_pos ht]
            obtain ⟨r, hr⟩ := ih { s with history := s.history ++ [⟨"model", t⟩] }
            exact ⟨⟨"model", t⟩ :: r, by simpa using hr⟩

theorem sendToolResponse_spec (env : TCEnv) (s : TCState) (name : String) (result : JVal) :
    toolCallCount (sendToolResponse env s name result).events = 0 ∧
    errorCount (sendToolResponse env s name result).events = 0 ∧
    (sendToolResponse env s name result).requests.length = 1 ∧
    (sendToolResponse env s name result).dispatched = [] ∧
    ∃ rest, (sendToolResponse env s name result).state.history =
      s.history ++ (⟨"function", renderFunctionTurn name result⟩ :: rest) := by
  rcases h : env.api s.apiCalls (s.history ++ [⟨"function", renderFunctionTurn name result⟩]) with e | r
  · simp only [sendToolResponse, h]
    refine ⟨?_, ?_, ?_, ?_, ⟨[], ?_⟩⟩ <;> simp [toolCallCount, errorCount]
  · rcases hc : r.candidates.head? with _ | parts
    · simp only [sendToolResponse, h, hc]
      refine ⟨?_, ?_, ?_, ?_, ⟨[], ?_⟩⟩ <;> simp [toolCallCount, errorCount]
    · simp only [sendToolResponse, h, hc]
      obtain ⟨rest, hr⟩ := appendTextParts_history
        { history := s.history ++ [⟨"function", renderFunctionTurn name result⟩],
          apiCalls := s.apiCalls + 1, dispatches := s.dispatches } parts
      refine ⟨?_, ?_, ?_, ?_, ⟨rest, ?_⟩⟩
      · exact (appendTextParts_counts _ parts).1
      · exact (appendTextParts_counts _ parts).2
      · simp
      · simp
      · simpa using hr

end TextClient

namespace TextClient

theorem toolCallCount_nil : toolCallCount [] = 0 := rfl

theorem errorCount_nil : errorCount [] = 0 := rfl

theorem toolCallCount_cons (e : TCEvent) (evs : List TCEvent) :
    toolCallCount (e :: evs) = (if isToolCallEv e then 1 else 0) + toolCallCount evs := by
  simp [toolCallCount, List.countP_cons]; omega

theorem toolCallCount_append (a b : List TCEvent) :
    toolCallCount (a ++ b) = toolCallCount a + toolCallCount b := by
  simp [toolCallCount, List.countP_append]

theorem errorCount_cons (e : TCEvent) (evs : List TCEvent) :
    errorCount (e :: evs) = (if isErrorEv e then 1 else 0) + errorCount evs := by
  simp [errorCount, List.countP_cons]; omega

theorem errorCount_append (a b : List TCEvent) :
    errorCount (a ++ b) = errorCount a + errorCount b := by
  simp [errorCount, List.countP_append]

theorem fcParts_cons (p : ContentPart) (l : List ContentPart) :
    fcParts (p :: l) = p.functionCall.toList ++ fcParts l := by
  cases h : p.functionCall <;> simp [fcParts, List.filterMap_cons, h]

theorem handleOnePart_spec (env : TCEnv) (s : TCState) (p : ContentPart) :
    toolCallCount (handleOnePart env s p).events = p.functionCall.toList.length ∧
    errorCount (handleOnePart env s p).events = 0 ∧
    (handleOnePart env s p).requests.length = p.functionCall.toList.length ∧
    (handleOnePart env s p).dispatched = p.functionCall.toList ∧
    ∃ rest, (handleOnePart env s p).state.history = s.history ++ rest := by
  rcases hpf : p.functionCall with _ | ⟨name, args⟩
  · rcases hpt : p.text with _ | t
    · simp only [handleOnePart, hpf, hpt, TCRun.pure]
      refine ⟨?_, ?_, ?_, ?_, ⟨[], ?_⟩⟩ <;>
        simp [toolCallCount, errorCount, isToolCallEv, isErrorEv]
    · by_cases ht : t = ""
      · simp only [handleOnePart, hpf, hpt, ht, TCRun.pure]
        refine ⟨?_, ?_, ?_, ?_, ⟨[], ?_⟩⟩ <;>
          simp [toolCallCount, errorCount, isToolCallEv, isErrorEv]
      · simp only [handleOnePart, hpf, hpt, if_pos ht, TCRun.pure]
        refine ⟨?_, ?_, ?_, ?_, ⟨[⟨"model", t⟩], ?_⟩⟩ <;>
          simp [toolCallCount, errorCount, toolCallCount_cons, errorCount_cons,
                isToolCallEv, isErrorEv]
  · rcases hpt : p.text with _ | t
    · rcases hd : env.dispatch s.dispatches name args with e | r
      · simp only [handleOnePart, hpf, hpt, hd, TCRun.pure]
        obtain ⟨h1, h2, h3, h4, hr, h5⟩ :=
          sendToolResponse_spec env ⟨s.history, s.apiCalls, s.dispatches + 1⟩ name (errShaped e)
        refine ⟨?_, ?_, ?_, ?_, ?_⟩
        · simp [toolCallCount_cons, isToolCallEv, h1]
        · simp [errorCount_cons, isErrorEv, h2]
        · simp [h3]
        · simp [h4]
        · exact ⟨⟨"function", renderFunctionTurn name (errShaped e)⟩ :: hr, by simpa using h5⟩
      · simp only [handleOnePart, hpf, hpt, hd, TCRun.pure]
        obtain ⟨h1, h2, h3, h4, hr, h5⟩ :=
          sendToolResponse_spec env ⟨s.history, s.apiCalls, s.dispatches + 1⟩ name r
        refine ⟨?_, ?_, ?_, ?_, ?_⟩
        · simp [toolCallCount_cons, isToolCallEv, h1]
        · simp [errorCount_cons, isErrorEv, h2]
        · simp [h3]
        · simp [h4]
        · exact ⟨⟨"function", renderFunctionTurn name r⟩ :: hr, by simpa using h5⟩
    · by_cases ht : t = ""
      · rcases hd : env.dispatch s.dispatches name args with e | r
        · simp only [handleOnePart, hpf, hpt, ht, ne_eq, not_true_eq_false, if_false, hd,
            TCRun.pure]
          obtain ⟨h1, h2, h3, h4, hr, h5⟩ :=
            sendToolResponse_spec env ⟨s.history, s.apiCalls, s.dispatches + 1⟩ name (errShaped e)
          refine ⟨?_, ?_, ?_, ?_, ?_⟩
          · simp [toolCallCount_cons, isToolCallEv, h1]
          · simp [errorCount_cons, isErrorEv, h2]
          · simp [h3]
          · simp [h4]
          · exact ⟨⟨"function", renderFunctionTurn name (errShaped e)⟩ :: hr, by simpa using h5⟩
        · simp only [handleOnePart, hpf, hpt, ht, ne_eq, not_true_eq_false, if_false, hd,
            TCRun.pure]
          obtain ⟨h1, h2, h3, h4, hr, h5⟩ :=
            sendToolResponse_spec env ⟨s.history, s.apiCalls, s.dispatches + 1⟩ name r
          refine ⟨?_, ?_, ?_, ?_, ?_⟩
          · simp [toolCallCount_cons, isToolCallEv, h1]
          · simp [errorCount_cons, isErrorEv, h2]
          · simp [h3]
          · simp [h4]
          · exact ⟨⟨"function", renderFunctionTurn name r⟩ :: hr, by simpa using h5⟩
      · rcases hd : env.dispatch s.dispatches name args with e | r
        · simp only [handleOnePart, hpf, hpt, ne_eq, ht, not_false_eq_true, if_true, hd,
            TCRun.pure]
          obtain ⟨h1, h2, h3, h4, hr, h5⟩ :=
            sendToolResponse_spec env ⟨s.history ++ [⟨"model", t⟩], s.apiCalls, s.dispatches + 1⟩
              name (errShaped e)
          refine ⟨?_, ?_, ?_, ?_, ?_⟩
          · simp [toolCallCount_append, toolCallCount_cons, toolCallCount_nil, isToolCallEv, h1]
          · simp [errorCount_append, errorCount_cons, errorCount_nil, isErrorEv, h2]
          · simp [h3]
          · simp [h4]
          · refine ⟨⟨"model", t⟩ :: ⟨"function", renderFunctionTurn name (errShaped e)⟩ :: hr, ?_⟩
            simpa using h5
        · simp only [handleOnePart, hpf, hpt, ne_eq, ht, not_false_eq_true, if_true, hd,
            TCRun.pure]
          obtain ⟨h1, h2, h3, h4, hr, h5⟩ :=
            sendToolResponse_spec env ⟨s.history ++ [⟨"model", t⟩], s.apiCalls, s.dispatches + 1⟩
              name r
          refine ⟨?_, ?_, ?_, ?_, ?_⟩
          · simp [toolCallCount_append, toolCallCount_cons, toolCallCount_nil, isToolCallEv, h1]
          · simp [errorCount_append, errorCount_cons, errorCount_nil, isErrorEv, h2]
          · simp [h3]
          · simp [h4]
          · refine ⟨⟨"model", t⟩ :: ⟨"function", renderFunctionTurn name r⟩ :: hr, ?_⟩
            simpa using h5

end TextClient

namespace TextClient

theorem processParts_spec (env : TCEnv) (s : TCState) (parts : List ContentPart) :
    toolCallCount (processParts env s parts).events = (fcParts parts).length ∧
    errorCount (processParts env s parts).events = 0 ∧
    (processParts env s parts).requests.length = (fcParts parts).length ∧
    (processParts env s parts).dispatched = fcParts parts ∧
    ∃ rest, (processParts env s parts).state.history = s.history ++ rest := by
  induction parts generalizing s with
  | nil =>
      simp [processParts, TCRun.pure, fcParts, toolCallCount_nil, errorCount_nil]
  | cons p rest ih =>
      obtain ⟨a1, a2, a3, a4, ar, a5⟩ := handleOnePart_spec env s p
      obtain ⟨b1, b2, b3, b4, br, b5⟩ := ih (handleOnePart env s p).state
      simp only [processParts, TCRun.append]
      refine ⟨?_, ?_, ?_, ?_, ?_⟩
      · simp [toolCallCount_append, a1, b1, fcParts_cons]
      · simp [errorCount_append, a2, b2]
      · simp [a3, b3, fcParts_cons]
      · simp [a4, b4, fcParts_cons]
      · exact ⟨ar ++ br, by simp [b5, a5]⟩

theorem sendText_spec (env : TCEnv) (s : TCState) (u : String)
    (resp : GenResponse) (parts : List ContentPart)
    (hapi : env.api s.apiCalls (s.history ++ [⟨"user", u⟩]) = .ok resp)
    (herr : resp.error = none)
    (hcand : resp.candidates.head? = some parts) :
    toolCallCount (sendText env s u).events = (fcParts parts).length ∧
    errorCount (sendText env s u).events = 0 ∧
    (sendText env s u).requests.length = 1 + (fcParts parts).length ∧
    (sendText env s u).dispatched = fcParts parts := by
  obtain ⟨c1, c2, c3, c4, cr, c5⟩ :=
    processParts_spec env ⟨s.history ++ [⟨"user", u⟩], s.apiCalls + 1, s.dispatches⟩ parts
  simp only [sendText, hapi, herr, hcand]
  exact ⟨c1, c2, by simp [c3]; omega, c4⟩

theorem sendText_history (env : TCEnv) (s : TCState) (u : String) :
    ∃ rest, (sendText env s u).state.history = s.history ++ (⟨"user", u⟩ :: rest) := by
  rcases h : env.api s.apiCalls (s.history ++ [⟨"user", u⟩]) with e | r
  · exact ⟨[], by simp [sendText, h]⟩
  · rcases he : r.error with _ | m
    · rcases hc : r.candidates.head? with _ | parts
      · exact ⟨[], by simp [sendText, h, he, hc]⟩
      · obtain ⟨c1, c2, c3, c4, cr, c5⟩ :=
          processParts_spec env ⟨s.history ++ [⟨"user", u⟩], s.apiCalls + 1, s.dispatches⟩ parts
        refine ⟨cr, ?_⟩
        simp only [sendText, h, he, hc]
        simpa using c5
    · exact ⟨[], by simp [sendText, h, he]⟩

theorem sendText_initial_failure (env : TCEnv) (s : TCState) (u : String) (e : String)
    (h : env.api s.apiCalls (s.history ++ [⟨"user", u⟩]) = .error e) :
    (sendText env s u).events = [.errorCb e] ∧
    (sendText env s u).state.history = s.history ++ [⟨"user", u⟩] := by
  simp [sendText, h]

theorem sendText_decode_failure (env : TCEnv) (s : TCState) (u : String)
    (resp : GenResponse) (m : String)
    (h : env.api s.apiCalls (s.history ++ [⟨"user", u⟩]) = .ok resp)
    (he : resp.error = some m) :
    (sendText env s u).events = [.errorCb m] ∧
    (sendText env s u).state.history = s.history ++ [⟨"user", u⟩] := by
  simp [sendText, h, he]

end TextClient

/-! Lemmas about the live session. -/

namespace LiveClient

theorem toolCallCountL_nil : toolCallCountL [] = 0 := rfl

theorem toolCallCountL_cons (e : LCEvent) (evs : List LCEvent) :
    toolCallCountL (e :: evs) = (if isToolCallL e then 1 else 0) + toolCallCountL evs := by
  simp [toolCallCountL, List.countP_cons]; omega

theorem toolCallCountL_append (a b : List LCEvent) :
    toolCallCountL (a ++ b) = toolCallCountL a + toolCallCountL b := by
  simp [toolCallCountL, List.countP_append]

theorem toolCallCountL_eq_zero (evs : List LCEvent)
    (h : ∀ e ∈ evs, isToolCallL e = false) : toolCallCountL evs = 0 := by
  rw [toolCallCountL, List.countP_eq_zero]
  intro e he
  simp [h e he]

theorem handleModelParts_no_toolCall (tc : Bool) (parts : List ModelPart) :
    ∀ e ∈ handleModelParts tc parts, isToolCallL e = false := by
  induction parts with
  | nil => simp [handleModelParts]
  | cons p rest ih =>
      intro e he
      simp only [handleModelParts, List.mem_append] at he
      rcases he with (ht | ha) | hr
      · rcases hpt : p.text with _ | t
        · rw [hpt] at ht; simp at ht
        · rw [hpt] at ht
          by_cases h0 : t = ""
          · simp [h0] at ht
          · simp [h0] at ht
            subst ht; rfl
      · rcases hpi : p.inlineData with _ | md
        · rw [hpi] at ha; simp at ha
        · rw [hpi] at ha
          rcases md with ⟨mime, data⟩
          by_cases hm : mime.startsWith "audio/"
          · simp [hm] at ha; subst ha; rfl
          · simp [hm] at ha
      · exact ih e hr

theorem handleFunctionCalls_count (dispatch : Nat → String → JVal → Except String JVal)
    (d : Nat) (fcs : List FunctionCall) :
    toolCallCountL (handleFunctionCalls dispatch d fcs) = fcs.length := by
  induction fcs generalizing d with
  | nil => simp [handleFunctionCalls, toolCallCountL_nil]
  | cons fc rest ih =>
      rcases hd : dispatch d fc.name fc.args with e | r <;>
        simp [handleFunctionCalls, hd, toolCallCountL_append, toolCallCountL_cons,
              toolCallCountL_nil, isToolCallL, ih] <;> omega

theorem handleGeminiMessage_count (dispatch : Nat → String → JVal → Except String JVal)
    (d0 : Nat) (msg : ServerMsg) (fcs : List FunctionCall)
    (hmsg : msg.toolCall = some fcs) :
    toolCallCountL (handleGeminiMessage dispatch d0 msg) = fcs.length := by
  rcases hc : msg.modelTurnParts with _ | parts <;>
    simp only [handleGeminiMessage, hc, hmsg]
  · simpa [toolCallCountL_append] using handleFunctionCalls_count dispatch d0 fcs
  · rw [toolCallCountL_append,
        toolCallCountL_eq_zero _ (handleModelParts_no_toolCall msg.turnComplete parts),
        handleFunctionCalls_count]
    omega

end LiveClient

namespace LiveClient

theorem handleFunctionCalls_order (dispatch : Nat → String → JVal → Except String JVal)
    (d : Nat) (fcs : List FunctionCall) (j : Nat) (id name : String) (args : JVal)
    (r : Option JVal)
    (hj : (handleFunctionCalls dispatch d fcs)[j]? = some (.toolCall id name args r)) :
    ∃ i, i < j ∧ ∃ resp,
      (handleFunctionCalls dispatch d fcs)[i]? =
        some (.upstreamSend (.toolResponse id name resp)) ∧
      (∀ rv, r = some rv → resp = rv) ∧
      (r = none → ∃ m, resp = TextClient.errShaped m) := by
  induction fcs generalizing d j with
  | nil => simp [handleFunctionCalls] at hj
  | cons fc rest ih =>
      rcases hd : dispatch d fc.name fc.args with e | rv <;>
        simp only [handleFunctionCalls, hd, List.cons_append, List.nil_append] at hj ⊢
      · match j with
        | 0 => simp at hj
        | 1 =>
            simp only [List.getElem?_cons_succ, List.getElem?_cons_zero] at hj
            obtain ⟨h1, h2, h3, h4⟩ : fc.id = id ∧ fc.name = name ∧ fc.args = args ∧ none = r := by
              cases hj; exact ⟨rfl, rfl, rfl, rfl⟩
            refine ⟨0, by omega, TextClient.errShaped e, ?_, ?_, ?_⟩
            · simp [h1, h2]
            · intro rv hrv; rw [← h4] at hrv; cases hrv
            · intro _; exact ⟨e, rfl⟩
        | (j' + 2) =>
            simp only [List.getElem?_cons_succ] at hj
            obtain ⟨i', hi', resp, hresp, hc1, hc2⟩ := ih (d + 1) j' hj
            exact ⟨i' + 2, by omega, resp, by simpa [List.getElem?_cons_succ] using hresp, hc1, hc2⟩
      · match j with
        | 0 => simp at hj
        | 1 =>
            simp only [List.getElem?_cons_succ, List.getElem?_cons_zero] at hj
            obtain ⟨h1, h2, h3, h4⟩ : fc.id = id ∧ fc.name = name ∧ fc.args = args ∧ some rv = r := by
              cases hj; exact ⟨rfl, rfl, rfl, rfl⟩
            refine ⟨0, by omega, rv, ?_, ?_, ?_⟩
            · simp [h1, h2]
            · intro rv' hrv; rw [← h4] at hrv; cases hrv; rfl
            · intro hnone; rw [← h4] at hnone; cases hnone
        | (j' + 2) =>
            simp only [List.getElem?_cons_succ] at hj
            obtain ⟨i', hi', resp, hresp, hc1, hc2⟩ := ih (d + 1) j' hj
            exact ⟨i' + 2, by omega, resp, by simpa [List.getElem?_cons_succ] using hresp, hc1, hc2⟩

theorem handleGeminiMessage_order (dispatch : Nat → String → JVal → Except String JVal)
    (d0 : Nat) (msg : ServerMsg) (j : Nat) (id name : String) (args : JVal)
    (r : Option JVal)
    (hj : (handleGeminiMessage dispatch d0 msg)[j]? = some (.toolCall id name args r)) :
    ∃ i, i < j ∧ ∃ resp,
      (handleGeminiMessage dispatch d0 msg)[i]? =
        some (.upstreamSend (.toolResponse id name resp)) ∧
      (∀ rv, r = some rv → resp = rv) ∧
      (r = none → ∃ m, resp = TextClient.errShaped m) := by
  rcases hfc : msg.toolCall with _ | fcs
  · -- no toolCall frame: events carry no tool-call callback, contradiction
    exfalso
    have hmem := List.getElem?_mem hj
    simp only [handleGeminiMessage, hfc, List.append_nil] at hmem
    rcases hc : msg.modelTurnParts with _ | parts
    · rw [hc] at hmem; simp at hmem
    · rw [hc] at hmem
      have := handleModelParts_no_toolCall msg.turnComplete parts _ hmem
      simp [isToolCallL] at this
  · have hsplit : handleGeminiMessage dispatch d0 msg =
        (match msg.modelTurnParts with
         | some parts => handleModelParts msg.turnComplete parts
         | none => []) ++ handleFunctionCalls dispatch d0 fcs := by
      simp [handleGeminiMessage, hfc]
    set pre : List LCEvent :=
      (match msg.modelTurnParts with
       | some parts => handleModelParts msg.turnComplete parts
       | none => []) with hpre
    have hnotool : ∀ e ∈ pre, isToolCallL e = false := by
      rcases hc : msg.modelTurnParts with _ | parts
      · simp [hpre, hc]
      · rw [hpre, hc]
        exact handleModelParts_no_toolCall msg.turnComplete parts
    rw [hsplit] at hj
    rw [List.getElem?_append] at hj
    by_cases hlt : j < pre.length
    · exfalso
      rw [if_pos hlt] at hj
      have := hnotool _ (List.getElem?_mem hj)
      simp [isToolCallL] at this
    · rw [if_neg hlt] at hj
      obtain ⟨i', hi', resp, hresp, hc1, hc2⟩ :=
        handleFunctionCalls_order dispatch d0 fcs (j - pre.length) id name args r hj
      refine ⟨pre.length + i', by omega, resp, ?_, hc1, hc2⟩
      rw [hsplit, List.getElem?_append]
      rw [if_neg (by omega)]
      simpa [Nat.add_sub_cancel_left] using hresp

end LiveClient

namespace TextClient

theorem reachable_head_user {s : TCState} (h : Reachable s) :
    s.history = [] ∨ ∃ u rest, s.history = ⟨"user", u⟩ :: rest := by
  induction h with
  | init => exact Or.inl rfl
  | step env u hprev ih =>
      obtain ⟨rest, hr⟩ := sendText_history env _ u
      rcases ih with he | ⟨u0, r0, h0⟩
      · right
        exact ⟨u, rest, by rw [hr, he]; simp⟩
      · right
        exact ⟨u0, r0 ++ (⟨"user", u⟩ :: rest), by rw [hr, h0]; simp⟩
  | doReset hprev ih => exact Or.inl rfl

end TextClient

namespace Itin

theorem getD_append_lt {α : Type} [Inhabited α] (l l' : List α) (n : Nat)
    (h : n < l.length) : (l ++ l').getD n default = l.getD n default := by
  rw [List.getD_eq_getElem?_getD, List.getD_eq_getElem?_getD, List.getElem?_append, if_pos h]

theorem getD_append_self {α : Type} [Inhabited α] (l : List α) (x : α) :
    (l ++ [x]).getD l.length default = x := by
  rw [List.getD_eq_getElem?_getD, List.getElem?_append, if_neg (by omega)]
  simp

end Itin

/-! Claim theorems. -/

/-- C1: for every upstream tool-call request handled, the tool-call callback
is emitted to the client exactly once per requested function call, regardless
of whether dispatch succeeds or fails: the Live Session emits one callback
per function call of a `toolCall` frame, and the Fallback Session emits one
callback per function-call part of the response candidate it handles. -/
theorem toolCall_callback_exactly_once
    (dispatch : Nat → String → JVal → Except String JVal) (d0 : Nat)
    (msg : LiveClient.ServerMsg) (fcs : List LiveClient.FunctionCall)
    (hmsg : msg.toolCall = some fcs)
    (env : TextClient.TCEnv) (s : TextClient.TCState) (u : String)
    (resp : TextClient.GenResponse) (parts : List TextClient.ContentPart)
    (hapi : env.api s.apiCalls (s.history ++ [⟨"user", u⟩]) = .ok resp)
    (herr : resp.error = none)
    (hcand : resp.candidates.head? = some parts) :
    LiveClient.toolCallCountL (LiveClient.handleGeminiMessage dispatch d0 msg) = fcs.length ∧
    TextClient.toolCallCount (TextClient.sendText env s u).events =
      (TextClient.fcParts parts).length :=
  ⟨LiveClient.handleGeminiMessage_count dispatch d0 msg fcs hmsg,
   (TextClient.sendText_spec env s u resp parts hapi herr hcand).1⟩

/-- Witness for C1: a two-call frame where the first dispatch succeeds and
the second fails, and a fallback response with one text part and one
function-call part whose dispatch fails. -/
theorem toolCall_callback_exactly_once_witness :
    LiveClient.toolCallCountL (LiveClient.handleGeminiMessage liveDispatch0 0 twoCallFrame) =
      ([⟨"id1", "get_weather", .null⟩, ⟨"id2", "poi_search", .null⟩] :
        List LiveClient.FunctionCall).length ∧
    TextClient.toolCallCount (TextClient.sendText envMixed {} "go").events =
      (TextClient.fcParts [{ text := some "Checking" },
                           { functionCall := some ("get_weather", JVal.null) }]).length :=
  toolCall_callback_exactly_once liveDispatch0 0 twoCallFrame _ rfl envMixed {} "go"
    { error := none,
      candidates := [[{ text := some "Checking" },
                      { functionCall := some ("get_weather", JVal.null) }]] }
    _ rfl rfl rfl

/-- C2 counterexample: a fallback response whose only part is a function call
yields the reachable history `[user, function]`: the `function` turn directly
follows the `user` turn, and no `model` turn recording the function call
exists in history, refuting the claimed invariant. -/
theorem function_turn_follows_user_directly :
    (TextClient.sendText envBareFc {} "hi").state.history.map Turn.role =
      ["user", "function"] ∧
    TextClient.Reachable (TextClient.sendText envBareFc {} "hi").state :=
  ⟨rfl, TextClient.Reachable.step envBareFc "hi" TextClient.Reachable.init⟩

/-- C2 (amended): the invariant that actually holds of the Fallback Session's
history is weaker than claimed: a `function` turn is never the first history
entry — the history of every reachable state starts with the `user` turn that
opened the conversation — but the `model` turn whose function call it answers
is never recorded, so a `function` turn need not be immediately preceded by a
`model` turn. -/
theorem function_turn_never_first {s : TextClient.TCState}
    (h : TextClient.Reachable s) (i : Nat) (t : Turn)
    (hget : s.history[i]? = some t) (hrole : t.role = "function") :
    0 < i ∧ ∃ u rest, s.history = ⟨"user", u⟩ :: rest := by
  rcases TextClient.reachable_head_user h with he | ⟨u, rest, hr⟩
  · rw [he] at hget; simp at hget
  · refine ⟨?_, u, rest, hr⟩
    rcases Nat.eq_zero_or_pos i with h0 | h0
    · subst h0
      rw [hr] at hget
      simp only [List.getElem?_cons_zero] at hget
      cases hget
      simp at hrole
    · exact h0

/-- Witness for C2 at the reachable history `[user, function]`. -/
theorem function_turn_never_first_witness :
    0 < 1 ∧ ∃ u rest,
      (TextClient.sendText envBareFc {} "hi").state.history = ⟨"user", u⟩ :: rest :=
  function_turn_never_first
    (TextClient.Reachable.step envBareFc "hi" TextClient.Reachable.init) 1
    ⟨"function", TextClient.renderFunctionTurn "poi_search" JVal.null⟩ rfl rfl

/-- C3: after a `reset` received while mode=fallback and state=ready whose
re-connect succeeds on the live leg, the retained fallback session (its
`reset()` is never invoked and `useTextFallback` is never cleared) still
serves the next user text turn: the upstream request of that turn carries the
*old* history plus the new user turn, no traffic reaches the connected live
session, and the connecting sequence's live success is visible in the state. -/
theorem reset_keeps_stale_fallback_history :
    fbAfterReset.geminiClient = some true ∧
    fbAfterReset.useTextFallback = true ∧
    fbNextTurn.requests =
      [[⟨"user", "Plan a trip"⟩, ⟨"model", "Hi there"⟩, ⟨"user", "Hello again"⟩]] ∧
    fbNextTurn.frames = [] :=
  ⟨rfl, rfl, rfl, rfl⟩

/-- C4 counterexample: a single user turn whose initial response carries two
function-call parts performs two tool-call round trips (three upstream
requests in total), refuting "at most one tool-call round trip per user text
turn". -/
theorem two_function_calls_two_roundtrips :
    (TextClient.sendText envTwoFc {} "go").requests.length = 3 ∧
    (TextClient.sendText envTwoFc {} "go").dispatched.length = 2 :=
  ⟨rfl, rfl⟩

/-- C4 (amended): in fallback mode at most one tool-call round trip is
performed per *function-call part of the initial response* (so a response
with several function-call parts round-trips once per part): the number of
upstream requests of the turn is one plus the number of function-call parts
of the handled candidate, and the dispatched calls are exactly those parts —
in particular the follow-up responses' function-call parts are never
executed or chased further. -/
theorem one_roundtrip_per_function_call_part
    (env : TextClient.TCEnv) (s : TextClient.TCState) (u : String)
    (resp : TextClient.GenResponse) (parts : List TextClient.ContentPart)
    (hapi : env.api s.apiCalls (s.history ++ [⟨"user", u⟩]) = .ok resp)
    (herr : resp.error = none)
    (hcand : resp.candidates.head? = some parts) :
    (TextClient.sendText env s u).requests.length = 1 + (TextClient.fcParts parts).length ∧
    (TextClient.sendText env s u).dispatched = TextClient.fcParts parts :=
  ⟨(TextClient.sendText_spec env s u resp parts hapi herr hcand).2.2.1,
   (TextClient.sendText_spec env s u resp parts hapi herr hcand).2.2.2⟩

/-- Witness for C4 at the two-function-call response. -/
theorem one_roundtrip_per_function_call_part_witness :
    (TextClient.sendText envTwoFc {} "go").requests.length =
      1 + (TextClient.fcParts [{ functionCall := some ("get_weather", JVal.null) },
                               { functionCall := some ("poi_search", JVal.null) }]).length ∧
    (TextClient.sendText envTwoFc {} "go").dispatched =
      TextClient.fcParts [{ functionCall := some ("get_weather", JVal.null) },
                          { functionCall := some ("poi_search", JVal.null) }] :=
  one_roundtrip_per_function_call_part envTwoFc {} "go"
    { error := none,
      candidates := [[{ functionCall := some ("get_weather", JVal.null) },
                      { functionCall := some ("poi_search", JVal.null) }]] }
    _ rfl rfl rfl

/-- C5: whenever the Live Session's inbound handler emits the local tool-call
callback for a call, an upstream `tool_response` frame tagged with the
original call id was sent strictly earlier in the same handling — carrying
the dispatch result on success and an error-shaped body on dispatch failure
(the upstream reply always precedes the local callback in both branches). -/
theorem upstream_reply_precedes_callback
    (dispatch : Nat → String → JVal → Except String JVal) (d0 : Nat)
    (msg : LiveClient.ServerMsg) (j : Nat) (id name : String) (args : JVal)
    (r : Option JVal)
    (hj : (LiveClient.handleGeminiMessage dispatch d0 msg)[j]? =
      some (.toolCall id name args r)) :
    ∃ i, i < j ∧ ∃ resp,
      (LiveClient.handleGeminiMessage dispatch d0 msg)[i]? =
        some (.upstreamSend (.toolResponse id name resp)) ∧
      (∀ rv, r = some rv → resp = rv) ∧
      (r = none → ∃ m, resp = TextClient.errShaped m) :=
  LiveClient.handleGeminiMessage_order dispatch d0 msg j id name args r hj

/-- Witness for C5 at the first callback of the two-call frame. -/
theorem upstream_reply_precedes_callback_witness :
    ∃ i, i < 1 ∧ ∃ resp,
      (LiveClient.handleGeminiMessage liveDispatch0 0 twoCallFrame)[i]? =
        some (.upstreamSend (.toolResponse "id1" "get_weather" resp)) ∧
      (∀ rv, (some (JVal.str "ok") : Option JVal) = some rv → resp = rv) ∧
      ((some (JVal.str "ok") : Option JVal) = none → ∃ m, resp = TextClient.errShaped m) :=
  upstream_reply_precedes_callback liveDispatch0 0 twoCallFrame 1 "id1" "get_weather"
    JVal.null (some (JVal.str "ok")) rfl

/-- C6 counterexample: the tool catalog sent with each fallback-mode request
is *not* the declared catalog with `type` values as-is: its parameter `type`
values are upper-cased ("OBJECT"), while the declared values are lower-case
("object"). -/
theorem fallback_catalog_not_as_declared :
    ((ToolDefs.callGeminiAPIBody [] "sys").tools.map
       (fun g => g.functionDeclarations.map (fun d => d.parameters.type))) =
      [["OBJECT", "OBJECT", "OBJECT", "OBJECT", "OBJECT", "OBJECT"]] ∧
    ToolDefs.toolDefinitions.map (fun d => d.parameters.type) =
      ["object", "object", "object", "object", "object", "object"] :=
  ⟨by decide, rfl⟩

/-- C6 (amended): the live setup frame and every fallback-mode request carry
the *same* converted tool catalog (both call `getToolsForGemini`), in which
every parameter `type` value — at the top level and per property — is the
upper-cased form of the declared value. -/
theorem both_modes_share_uppercased_catalog (sys : String) (hist : List Turn) :
    (ToolDefs.sendSetupMessage sys).tools = (ToolDefs.callGeminiAPIBody hist sys).tools ∧
    ToolDefs.getToolsForGemini.functionDeclarations.map (fun d => d.parameters.type) =
      ToolDefs.toolDefinitions.map (fun d => ToolDefs.jsToUpperCase d.parameters.type) ∧
    ToolDefs.getToolsForGemini.functionDeclarations.map
        (fun d => d.parameters.properties.map (fun kv => kv.2.type)) =
      ToolDefs.toolDefinitions.map
        (fun d => d.parameters.properties.map (fun kv => kv.2.type.map ToolDefs.jsToUpperCase)) :=
  ⟨rfl, rfl, rfl⟩

/-- C7 counterexample: when the follow-up request after a tool result fails
at the transport layer, the turn surfaces *no* error callback at all (the
failure is caught and only logged), refuting "exactly one error callback":
the run below issues two requests, the second one fails, and the event trace
contains zero error callbacks. -/
theorem followup_failure_swallowed :
    TextClient.errorCount (TextClient.sendText envFollowupFail {} "hi").events = 0 ∧
    (TextClient.sendText envFollowupFail {} "hi").requests.length = 2 ∧
    envFollowupFail.api 1 (TextClient.sendText envFollowupFail {} "hi").state.history =
      Except.error "network down" :=
  ⟨rfl, rfl, rfl⟩

/-- C7 (amended): a transport or decode failure of the *initial* request of a
fallback user turn aborts the turn and surfaces exactly one error callback,
and every history entry appended before a failure is retained for the next
user turn; a failure of the follow-up request issued after a tool result,
however, is caught silently and surfaces no error callback (see the
counterexample). -/
theorem initial_failure_one_error_history_retained
    (env : TextClient.TCEnv) (s : TextClient.TCState) (u : String) (e : String)
    (envd : TextClient.TCEnv) (sd : TextClient.TCState) (ud : String)
    (respd : TextClient.GenResponse) (m : String)
    (h : env.api s.apiCalls (s.history ++ [⟨"user", u⟩]) = .error e)
    (hd : envd.api sd.apiCalls (sd.history ++ [⟨"user", ud⟩]) = .ok respd)
    (hdm : respd.error = some m) :
    (TextClient.sendText env s u).events = [TextClient.TCEvent.errorCb e] ∧
    (TextClient.sendText env s u).state.history = s.history ++ [⟨"user", u⟩] ∧
    (TextClient.sendText envd sd ud).events = [TextClient.TCEvent.errorCb m] ∧
    (TextClient.sendText envd sd ud).state.history = sd.history ++ [⟨"user", ud⟩] ∧
    ∀ env2 s2 u2, ∃ rest,
      (TextClient.sendText env2 s2 u2).state.history = s2.history ++ rest := by
  obtain ⟨a1, a2⟩ := TextClient.sendText_initial_failure env s u e h
  obtain ⟨b1, b2⟩ := TextClient.sendText_decode_failure envd sd ud respd m hd hdm
  refine ⟨a1, a2, b1, b2, ?_⟩
  intro env2 s2 u2
  obtain ⟨rest, hr⟩ := TextClient.sendText_history env2 s2 u2
  exact ⟨⟨"user", u2⟩ :: rest, by simpa using hr⟩

/-- Witness for C7 at a transport-failing and a decode-failing environment. -/
theorem initial_failure_one_error_history_retained_witness :
    (TextClient.sendText envApiFail {} "hi").events =
      [TextClient.TCEvent.errorCb "connect reset"] ∧
    (TextClient.sendText envApiFail {} "hi").state.history = [] ++ [⟨"user", "hi"⟩] ∧
    (TextClient.sendText envDecodeErr {} "hey").events =
      [TextClient.TCEvent.errorCb "bad request"] ∧
    (TextClient.sendText envDecodeErr {} "hey").state.history = [] ++ [⟨"user", "hey"⟩] ∧
    ∀ env2 s2 u2, ∃ rest,
      (TextClient.sendText env2 s2 u2).state.history = s2.history ++ rest :=
  initial_failure_one_error_history_retained envApiFail {} "hi" "connect reset"
    envDecodeErr {} "hey" { error := some "bad request", candidates := [] } "bad request"
    rfl rfl rfl

/-- C8 counterexample: an unknown tool name does not fail with a dispatch
error — `executeToolCall` *returns* an error-shaped result value. -/
theorem unknown_tool_returns_ok :
    ToolExec.executeToolCall toolEnv0 {} "book_flight" [] =
      .ok ({}, ToolExec.mkFail "Unknown tool: book_flight") :=
  rfl

/-- C8 (amended): the dispatcher's contract is
`execute(name, args) -> result | fails`, but an unknown tool name and a
missing required `destination` argument yield ordinary `{success: false}`
*result values* rather than failures; only errors propagated from the
external collaborator invoked make `execute` fail (together with the
`TypeError` thrown by `calculate_travel_time` on a missing `from_poi` /
`to_poi`). -/
theorem dispatcher_error_contract (env : ToolExec.ToolEnv) (s : ToolExec.ToolState)
    (name : String) (args1 args2 args3 : List (String × JVal)) (e : String)
    (h1 : name ∉ ["poi_search", "update_itinerary", "get_city_info", "get_weather",
                  "calculate_travel_time", "search_destination_info"])
    (h2 : jtruthy args2 "destination" = false)
    (h3 : jtruthy args3 "destination" = true)
    (h4 : env.searchPOIs (jstr args3 "destination") (jstr args3 "category")
            (ToolExec.poiInterests args3) (ToolExec.poiLimit args3) = .error e) :
    ToolExec.executeToolCall env s name args1 =
      .ok (s, ToolExec.mkFail ("Unknown tool: " ++ name)) ∧
    ToolExec.executeToolCall env s "poi_search" args2 =
      .ok (s, ToolExec.mkFail "Destination is required for POI search") ∧
    ToolExec.executeToolCall env s "poi_search" args3 = .error e := by
  simp only [List.mem_cons, List.not_mem_nil, or_false, not_or] at h1
  obtain ⟨n1, n2, n3, n4, n5, n6⟩ := h1
  refine ⟨?_, ?_, ?_⟩
  · simp [ToolExec.executeToolCall, n1, n2, n3, n4, n5, n6]
  · simp [ToolExec.executeToolCall, h2]
  · simp [ToolExec.executeToolCall, h3, h4]

/-- Witness for C8: an unknown name, empty arguments, and a rejecting POI
collaborator. -/
theorem dispatcher_error_contract_witness :
    ToolExec.executeToolCall toolEnvErr {} "book_flight" [] =
      .ok ({}, ToolExec.mkFail "Unknown tool: book_flight") ∧
    ToolExec.executeToolCall toolEnvErr {} "poi_search" [] =
      .ok ({}, ToolExec.mkFail "Destination is required for POI search") ∧
    ToolExec.executeToolCall toolEnvErr {} "poi_search"
        [("destination", JVal.str "Jaipur")] =
      .error "overpass timeout" :=
  dispatcher_error_contract toolEnvErr {} "book_flight" [] []
    [("destination", JVal.str "Jaipur")] "overpass timeout" (by decide) rfl rfl rfl

/-- C9: an `interrupt` control action in a live-ready state sends exactly one
interrupt frame (a `client_content` message with `turn_complete`) upstream
and no fallback request; in a fallback-ready state — where the retained live
client, if any, never reached its connected state — it produces no upstream
traffic at all. -/
theorem interrupt_upstream_frames (env : TextClient.TCEnv) (o : Handler.ConnectOutcome)
    (sL sF : Handler.HState)
    (hL1 : sL.geminiClient = some true) (hL2 : sL.isSessionActive = true)
    (hF1 : sF.useTextFallback = true) (hF2 : sF.isSessionActive = true)
    (hF3 : sF.geminiClient = none ∨ sF.geminiClient = some false) :
    (Handler.handleClientMessage env o sL .controlInterrupt).frames =
      [LiveClient.OutMsg.interruptFrame] ∧
    (Handler.handleClientMessage env o sL .controlInterrupt).requests = [] ∧
    (Handler.handleClientMessage env o sF .controlInterrupt).frames = [] ∧
    (Handler.handleClientMessage env o sF .controlInterrupt).requests = [] := by
  refine ⟨?_, ?_, ?_, ?_⟩
  · simp [Handler.handleClientMessage, hL1, hL2, LiveClient.sendInterrupt]
  · simp [Handler.handleClientMessage, hL1, hL2]
  · rcases hF3 with hn | hc
    · simp [Handler.handleClientMessage, hn, hF2, LiveClient.sendInterrupt]
    · simp [Handler.handleClientMessage, hc, hF2, LiveClient.sendInterrupt]
  · rcases hF3 with hn | hc
    · simp [Handler.handleClientMessage, hn, hF2]
    · simp [Handler.handleClientMessage, hc, hF2]

/-- Witness for C9 at the states reached by a successful live connect and by
the degradation to fallback. -/
theorem interrupt_upstream_frames_witness :
    (Handler.handleClientMessage envFb .liveOk liveReadyState .controlInterrupt).frames =
      [LiveClient.OutMsg.interruptFrame] ∧
    (Handler.handleClientMessage envFb .liveOk liveReadyState .controlInterrupt).requests = [] ∧
    (Handler.handleClientMessage envFb .liveOk fbReadyState .controlInterrupt).frames = [] ∧
    (Handler.handleClientMessage envFb .liveOk fbReadyState .controlInterrupt).requests = [] :=
  interrupt_upstream_frames envFb .liveOk liveReadyState fbReadyState
    rfl rfl rfl rfl (Or.inr rfl)

/-- C10: `updateItinerary` never mutates the itinerary passed to it: the call
deep-clones its argument and mutates only the clone, so for every action,
day number and activity the caller's object (modelled as a heap cell) is
unchanged — its name, destination and days included — and the returned value
lives at a fresh reference. -/
theorem updateItinerary_preserves_input (env : Itin.GeoEnv)
    (heap : List Itin.Itinerary) (r : Nat) (action : String) (dn : Option Rat)
    (a : Option Itin.PActivity) (h : r < heap.length) :
    ((Itin.updateItineraryHeap env heap r action dn a).1.getD r default =
       heap.getD r default) ∧
    ((Itin.updateItineraryHeap env heap r action dn a).1.getD r default).name =
      (heap.getD r default).name ∧
    ((Itin.updateItineraryHeap env heap r action dn a).1.getD r default).destination =
      (heap.getD r default).destination ∧
    ((Itin.updateItineraryHeap env heap r action dn a).1.getD r default).days =
      (heap.getD r default).days ∧
    (Itin.updateItineraryHeap env heap r action dn a).2 ≠ r ∧
    (Itin.updateItineraryHeap env heap r action dn a).1.getD
        (Itin.updateItineraryHeap env heap r action dn a).2 default =
      Itin.updateItinerary env (heap.getD r default) action dn a := by
  have hcell : (Itin.updateItineraryHeap env heap r action dn a).1.getD r default =
      heap.getD r default := Itin.getD_append_lt heap _ r h
  refine ⟨hcell, by rw [hcell], by rw [hcell], by rw [hcell], ?_, ?_⟩
  · show heap.length ≠ r
    omega
  · exact Itin.getD_append_self heap _

/-- Witness for C10 at a one-cell heap and an `add_activity` update. -/
theorem updateItinerary_preserves_input_witness :
    ((Itin.updateItineraryHeap geoEnv0 [{ destination := "Jaipur" }] 0 "add_activity"
        (some 1) (some { poi_name := some "Hawa Mahal" })).1.getD 0 default =
      ([{ destination := "Jaipur" }] : List Itin.Itinerary).getD 0 default) ∧
    ((Itin.updateItineraryHeap geoEnv0 [{ destination := "Jaipur" }] 0 "add_activity"
        (some 1) (some { poi_name := some "Hawa Mahal" })).1.getD 0 default).name =
      (([{ destination := "Jaipur" }] : List Itin.Itinerary).getD 0 default).name ∧
    ((Itin.updateItineraryHeap geoEnv0 [{ destination := "Jaipur" }] 0 "add_activity"
        (some 1) (some { poi_name := some "Hawa Mahal" })).1.getD 0 default).destination =
      (([{ destination := "Jaipur" }] : List Itin.Itinerary).getD 0 default).destination ∧
    ((Itin.updateItineraryHeap geoEnv0 [{ destination := "Jaipur" }] 0 "add_activity"
        (some 1) (some { poi_name := some "Hawa Mahal" })).1.getD 0 default).days =
      (([{ destination := "Jaipur" }] : List Itin.Itinerary).getD 0 default).days ∧
    (Itin.updateItineraryHeap geoEnv0 [{ destination := "Jaipur" }] 0 "add_activity"
        (some 1) (some { poi_name := some "Hawa Mahal" })).2 ≠ 0 ∧
    (Itin.updateItineraryHeap geoEnv0 [{ destination := "Jaipur" }] 0 "add_activity"
        (some 1) (some { poi_name := some "Hawa Mahal" })).1.getD
        (Itin.updateItineraryHeap geoEnv0 [{ destination := "Jaipur" }] 0 "add_activity"
          (some 1) (some { poi_name := some "Hawa Mahal" })).2 default =
      Itin.updateItinerary geoEnv0
        (([{ destination := "Jaipur" }] : List Itin.Itinerary).getD 0 default)
        "add_activity" (some 1) (some { poi_name := some "Hawa Mahal" }) :=
  updateItinerary_preserves_input geoEnv0 [{ destination := "Jaipur" }] 0 "add_activity"
    (some 1) (some { poi_name := some "Hawa Mahal" }) (by decide)
